import Mathlib

/-!
A shallow embedding of the analysis engine of the pc-bottleneck-analyzer
repository (src/lib/analysis.ts, src/lib/types.ts and the hardware
database module), together with theorems settling the frozen claims.

Conventions of the embedding:
* JavaScript numbers are modelled as `Rat` (the engine performs only
  rational arithmetic); scores are `Int` since every base and deduction
  is an integer.
* Nullable fields (`T | null`) are modelled as `Option`.
* Free-text display fields of findings and recommendations
  (`description`, `impact`, `fix`, `title`) interpolate live scan values
  into prose and carry no program logic; they are omitted from the
  record types.  The machine-relevant fields (`id`, `category`,
  `severity`, `difficulty`, `estimated_cost`, `tier`, `priority`) are
  kept.  The dynamic `estimated_cost` string of the upgrade recommendations
  `"$min - $max"` is modelled as the constructor `CostDisplay.span min max`.
* The stable JavaScript `Array.prototype.sort` is modelled by
  `List.mergeSort`, which is stable for the same comparator.
-/

namespace Analyzer

/- Batteries marks the `Rat` arithmetic operations `@[irreducible]`,
which prevents `decide`/`rfl` from evaluating the engine on concrete
scans; restore the default reducibility for this development so that
witnesses evaluate. -/
attribute [local semireducible] Rat.mul Rat.inv Rat.add Rat.sub Rat.ofScientific

/-! ### Data model (src/lib/types.ts) -/

inductive Severity where
  | critical
  | warning
  | info
  | good
deriving DecidableEq

inductive Category where
  | cpu
  | gpu
  | ram
  | storage
  | thermal
  | settings
deriving DecidableEq

inductive Difficulty where
  | easy
  | medium
  | hard
deriving DecidableEq

inductive ChannelMode where
  | single
  | dual
  | quad
  | unknown
deriving DecidableEq

inductive DriveType where
  | nvme_ssd
  | sata_ssd
  | hdd
  | unknown
deriving DecidableEq

structure CPUInfo where
  model_name : String
  architecture : String
  physical_cores : Nat
  logical_cores : Nat
  base_clock_ghz : Rat
  max_boost_clock_ghz : Rat
  current_clock_ghz : Rat
  cache_l1 : Option Rat
  cache_l2 : Option Rat
  cache_l3 : Option Rat
  current_temp_c : Option Rat
  usage_per_core : List Rat
  power_draw_w : Option Rat
deriving DecidableEq

structure GPUInfo where
  model_name : String
  vram_total_gb : Rat
  vram_used_gb : Rat
  gpu_clock_mhz : Rat
  memory_clock_mhz : Rat
  current_temp_c : Option Rat
  fan_speed_pct : Option Rat
  driver_version : String
  gpu_utilization_pct : Rat
  pcie_generation : Option Rat
  pcie_link_width : Option Rat
deriving DecidableEq

structure RAMInfo where
  total_gb : Rat
  speed_mhz : Rat
  num_sticks : Nat
  num_slots : Nat
  channel_mode : ChannelMode
  form_factor : String
  timings : Option String
  current_used_gb : Rat
  usage_percent : Rat
deriving DecidableEq

structure StorageInfo where
  model : String
  type : DriveType
  capacity_gb : Rat
  used_gb : Rat
  free_gb : Rat
  interface : String
  health_status : Option String
  is_boot_drive : Bool
deriving DecidableEq

structure MotherboardInfo where
  model : String
  chipset : Option String
  bios_version : String
  bios_date : Option String
deriving DecidableEq

structure OSInfo where
  windows_version : String
  build_number : String
  is_up_to_date : Option Bool
  power_plan : String
  game_mode : Option Bool
  hw_accelerated_gpu_scheduling : Option Bool
  virtual_memory_gb : Option Rat
deriving DecidableEq

structure NetworkInfo where
  connection_type : String
  speed_mbps : Option Rat
  latency_ms : Option Rat
deriving DecidableEq

structure BIOSSettings where
  xmp_enabled : Option Bool
  resizable_bar : Option Bool
  tpm_status : Option Bool
  virtualization : Option Bool
  secure_boot : Option Bool
deriving DecidableEq

structure SystemScan where
  scan_id : String
  timestamp : String
  scan_duration_seconds : Rat
  cpu : CPUInfo
  gpu : GPUInfo
  ram : RAMInfo
  storage : List StorageInfo
  motherboard : MotherboardInfo
  os : OSInfo
  network : NetworkInfo
  bios_settings : BIOSSettings
deriving DecidableEq

structure Bottleneck where
  id : String
  category : Category
  severity : Severity
  difficulty : Difficulty
  estimated_cost : String
deriving DecidableEq

inductive RecTier where
  | free
  | cheap
  | upgrade
deriving DecidableEq

/-- Display form of the `estimated_cost` of a recommendation: either a fixed
string from the source, or the dynamic `"$lo - $hi"` dollar span of the
upgrade recommendations. -/
inductive CostDisplay where
  | text (s : String)
  | span (lo hi : Rat)
deriving DecidableEq

structure Recommendation where
  id : String
  tier : RecTier
  estimated_cost : CostDisplay
  priority : Nat
deriving DecidableEq

structure ScoreBreakdown where
  cpu : Int
  gpu : Int
  ram : Int
  storage : Int
  settings : Int
deriving DecidableEq

structure PerformanceScore where
  total : Int
  grade : String
  grade_description : String
  breakdown : ScoreBreakdown
deriving DecidableEq

structure AnalysisResult where
  score : PerformanceScore
  bottlenecks : List Bottleneck
  recommendations : List Recommendation
deriving DecidableEq

/-! ### String helpers

JavaScript `String.prototype.includes` modelled on character lists. -/

/-- Does `pat` occur at the start of `l`? -/
def startsWithL : List Char → List Char → Bool
  | [], _ => true
  | _ :: _, [] => false
  | a :: as, b :: bs => a == b && startsWithL as bs

/-- Does `pat` occur anywhere inside `l`?  (`hasInfixL l []` is `true`,
as with JavaScript `s.includes("")`.) -/
def hasInfixL (l pat : List Char) : Bool :=
  match l with
  | [] => pat.isEmpty
  | _ :: t => startsWithL pat l || hasInfixL t pat

/-- JavaScript `s.includes(sub)`. -/
def containsStr (s sub : String) : Bool :=
  hasInfixL s.data sub.data

/-- JavaScript `toLowerCase`, character-wise (as `String.toLower` maps
`Char.toLower` over the characters). -/
def toLowerStr (s : String) : String :=
  String.mk (s.data.map Char.toLower)

/-- JavaScript `trim`: strip leading and trailing whitespace. -/
def trimStr (s : String) : String :=
  String.mk
    (((s.data.dropWhile Char.isWhitespace).reverse.dropWhile
        Char.isWhitespace).reverse)

/-! ### Hardware reference catalog (the hardware database module) -/

inductive HardwareTier where
  | very_high
  | high
  | mid
  | low
  | very_low
deriving DecidableEq

structure HardwareEntry where
  name : String
  tier : HardwareTier
  gaming_score : Rat
  release_year : Nat
  msrp : Rat
  current_price_approx : Rat
deriving DecidableEq

/-- `tierIndex` — numeric index of a tier (`TIER_ORDER.indexOf`):
0 = very_low, 4 = very_high.  The source computes this as `indexOf`
over the `TIER_ORDER` array; this total function has the same graph. -/
def tierIndex : HardwareTier → Int
  | .very_low => 0
  | .low => 1
  | .mid => 2
  | .high => 3
  | .very_high => 4

/-- The substring-match fallback of the lookup:
`key.includes(dbKey) || dbKey.includes(key)`. -/
def fuzzyMatch (key : String) (p : String × HardwareEntry) : Bool :=
  containsStr key p.1 || containsStr p.1 key

/-- Generic fuzzy lookup over a catalog given as an association list in
declared insertion order (JavaScript object property order for string
keys).  `lookupCPU` and `lookupGPU` in the source are two instances of
this algorithm over their respective databases. -/
def lookupIn (db : List (String × HardwareEntry)) (modelName : String) :
    Option HardwareEntry :=
  let key := trimStr (toLowerStr modelName)
  match db.find? (fun p => p.1 == key) with
  | some p => some p.2
  | none => (db.find? (fuzzyMatch key)).map (fun p => p.2)

/-- The sort key of `getUpgrades`: `gaming_score / (current_price_approx || 1)`.
JavaScript `||` falls back to `1` exactly when the price is `0` (the
only falsy rational). -/
def upgradeValue (e : HardwareEntry) : Rat :=
  e.gaming_score / (if e.current_price_approx = 0 then 1 else e.current_price_approx)

/-- The comparator of the `getUpgrades` sort: descending `upgradeValue`
(the JavaScript comparator returns `bValue - aValue`). -/
def upgradeGE (a b : HardwareEntry) : Prop :=
  upgradeValue b ≤ upgradeValue a

instance : DecidableRel upgradeGE :=
  fun a b => inferInstanceAs (Decidable (upgradeValue b ≤ upgradeValue a))

instance : IsTotal HardwareEntry upgradeGE :=
  ⟨fun a b => le_total (upgradeValue b) (upgradeValue a)⟩

instance : IsTrans HardwareEntry upgradeGE :=
  ⟨fun _ _ _ hab hbc => le_trans hbc hab⟩

/-- `getUpgrades(current, database, maxResults)`: entries of a strictly
higher tier, sorted stably by descending `upgradeValue`, truncated to
`maxResults`.  JavaScript `Array.prototype.sort` is stable, so it is
modelled by the stable `insertionSort`; a stable sort under a total,
transitive comparator is uniquely determined, so any stable sort models
the source faithfully. -/
def getUpgrades (current : HardwareEntry)
    (database : List (String × HardwareEntry)) (maxResults : Nat) :
    List HardwareEntry :=
  let currentTier := tierIndex current.tier
  (((database.map (fun p => p.2)).filter
      (fun e => tierIndex e.tier > currentTier)).insertionSort upgradeGE).take
    maxResults

/-- The CPU database, in declared insertion order. -/
def cpuDatabase : List (String × HardwareEntry) := [
  ("amd ryzen 9 9950x3d", ⟨"AMD Ryzen 9 9950X3D", .very_high, 97, 2025, 699, 699⟩),
  ("amd ryzen 9 9900x3d", ⟨"AMD Ryzen 9 9900X3D", .very_high, 96, 2025, 599, 599⟩),
  ("amd ryzen 7 9850x3d", ⟨"AMD Ryzen 7 9850X3D", .very_high, 99, 2026, 499, 499⟩),
  ("amd ryzen 7 9800x3d", ⟨"AMD Ryzen 7 9800X3D", .very_high, 98, 2024, 479, 449⟩),
  ("amd ryzen 9 9950x", ⟨"AMD Ryzen 9 9950X", .very_high, 97, 2024, 649, 549⟩),
  ("amd ryzen 9 9900x", ⟨"AMD Ryzen 9 9900X", .very_high, 94, 2024, 499, 399⟩),
  ("amd ryzen 7 9700x", ⟨"AMD Ryzen 7 9700X", .high, 90, 2024, 359, 299⟩),
  ("amd ryzen 5 9600x", ⟨"AMD Ryzen 5 9600X", .high, 86, 2024, 279, 229⟩),
  ("amd ryzen 9 7950x", ⟨"AMD Ryzen 9 7950X", .very_high, 93, 2022, 699, 449⟩),
  ("amd ryzen 9 7900x", ⟨"AMD Ryzen 9 7900X", .very_high, 91, 2022, 549, 349⟩),
  ("amd ryzen 7 7800x3d", ⟨"AMD Ryzen 7 7800X3D", .very_high, 96, 2023, 449, 339⟩),
  ("amd ryzen 7 7700x", ⟨"AMD Ryzen 7 7700X", .high, 87, 2022, 399, 249⟩),
  ("amd ryzen 5 7600x", ⟨"AMD Ryzen 5 7600X", .high, 84, 2022, 299, 199⟩),
  ("amd ryzen 5 7600", ⟨"AMD Ryzen 5 7600", .high, 82, 2023, 229, 179⟩),
  ("amd ryzen 7 5700x3d", ⟨"AMD Ryzen 7 5700X3D", .high, 83, 2024, 249, 189⟩),
  ("amd ryzen 7 5700x", ⟨"AMD Ryzen 7 5700X", .high, 75, 2022, 299, 149⟩),
  ("amd ryzen 9 5950x", ⟨"AMD Ryzen 9 5950X", .high, 82, 2020, 799, 349⟩),
  ("amd ryzen 9 5900x", ⟨"AMD Ryzen 9 5900X", .high, 81, 2020, 549, 249⟩),
  ("amd ryzen 7 5800x", ⟨"AMD Ryzen 7 5800X", .high, 78, 2020, 449, 169⟩),
  ("amd ryzen 7 5800x3d", ⟨"AMD Ryzen 7 5800X3D", .high, 85, 2022, 449, 249⟩),
  ("amd ryzen 5 5600x", ⟨"AMD Ryzen 5 5600X", .mid, 72, 2020, 299, 119⟩),
  ("intel core ultra 9 285k", ⟨"Intel Core Ultra 9 285K", .very_high, 90, 2024, 589, 449⟩),
  ("intel core ultra 7 265k", ⟨"Intel Core Ultra 7 265K", .high, 86, 2024, 394, 249⟩),
  ("intel core ultra 5 245k", ⟨"Intel Core Ultra 5 245K", .high, 82, 2024, 309, 209⟩),
  ("intel core i9-14900k", ⟨"Intel Core i9-14900K", .very_high, 95, 2023, 589, 439⟩),
  ("intel core i7-14700k", ⟨"Intel Core i7-14700K", .very_high, 92, 2023, 419, 329⟩),
  ("intel core i5-14600k", ⟨"Intel Core i5-14600K", .high, 87, 2023, 319, 249⟩),
  ("intel core i5-14400f", ⟨"Intel Core i5-14400F", .mid, 75, 2024, 199, 159⟩),
  ("intel core i9-13900k", ⟨"Intel Core i9-13900K", .very_high, 93, 2022, 589, 379⟩),
  ("intel core i7-13700k", ⟨"Intel Core i7-13700K", .high, 89, 2022, 419, 289⟩),
  ("intel core i5-13600k", ⟨"Intel Core i5-13600K", .high, 85, 2022, 319, 219⟩),
  ("intel core i5-13400f", ⟨"Intel Core i5-13400F", .mid, 72, 2023, 199, 149⟩),
  ("intel core i9-12900k", ⟨"Intel Core i9-12900K", .high, 84, 2021, 589, 269⟩),
  ("intel core i7-12700k", ⟨"Intel Core i7-12700K", .high, 82, 2021, 409, 219⟩),
  ("intel core i5-12600k", ⟨"Intel Core i5-12600K", .mid, 76, 2021, 289, 169⟩),
  ("intel core i5-12400f", ⟨"Intel Core i5-12400F", .mid, 68, 2022, 179, 109⟩),
  ("intel core i3-14100f", ⟨"Intel Core i3-14100F", .low, 60, 2024, 110, 89⟩),
  ("amd ryzen 5 5500", ⟨"AMD Ryzen 5 5500", .low, 58, 2022, 159, 89⟩),
  ("intel core i3-12100f", ⟨"Intel Core i3-12100F", .low, 55, 2022, 109, 79⟩),
  ("amd ryzen 5 3600", ⟨"AMD Ryzen 5 3600", .low, 52, 2019, 199, 79⟩)
]

/-- The GPU database, in declared insertion order. -/
def gpuDatabase : List (String × HardwareEntry) := [
  ("nvidia geforce rtx 5090", ⟨"NVIDIA GeForce RTX 5090", .very_high, 100, 2025, 1999, 2199⟩),
  ("nvidia geforce rtx 5080", ⟨"NVIDIA GeForce RTX 5080", .very_high, 90, 2025, 999, 1099⟩),
  ("nvidia geforce rtx 5070 ti", ⟨"NVIDIA GeForce RTX 5070 Ti", .very_high, 84, 2025, 749, 849⟩),
  ("nvidia geforce rtx 5070", ⟨"NVIDIA GeForce RTX 5070", .high, 78, 2025, 549, 629⟩),
  ("nvidia geforce rtx 5060 ti", ⟨"NVIDIA GeForce RTX 5060 Ti", .high, 70, 2025, 429, 429⟩),
  ("nvidia geforce rtx 5060", ⟨"NVIDIA GeForce RTX 5060", .mid, 58, 2025, 299, 299⟩),
  ("nvidia geforce rtx 4090", ⟨"NVIDIA GeForce RTX 4090", .very_high, 96, 2022, 1599, 1799⟩),
  ("nvidia geforce rtx 4080 super", ⟨"NVIDIA GeForce RTX 4080 SUPER", .very_high, 86, 2024, 999, 949⟩),
  ("nvidia geforce rtx 4080", ⟨"NVIDIA GeForce RTX 4080", .very_high, 84, 2022, 1199, 899⟩),
  ("nvidia geforce rtx 4070 ti super", ⟨"NVIDIA GeForce RTX 4070 Ti SUPER", .high, 80, 2024, 799, 749⟩),
  ("nvidia geforce rtx 4070 ti", ⟨"NVIDIA GeForce RTX 4070 Ti", .high, 76, 2023, 799, 649⟩),
  ("nvidia geforce rtx 4070 super", ⟨"NVIDIA GeForce RTX 4070 SUPER", .high, 73, 2024, 599, 569⟩),
  ("nvidia geforce rtx 4070", ⟨"NVIDIA GeForce RTX 4070", .high, 68, 2023, 599, 499⟩),
  ("nvidia geforce rtx 4060 ti", ⟨"NVIDIA GeForce RTX 4060 Ti", .mid, 58, 2023, 399, 369⟩),
  ("nvidia geforce rtx 4060", ⟨"NVIDIA GeForce RTX 4060", .mid, 50, 2023, 299, 279⟩),
  ("nvidia geforce rtx 3090 ti", ⟨"NVIDIA GeForce RTX 3090 Ti", .high, 75, 2022, 1999, 899⟩),
  ("nvidia geforce rtx 3090", ⟨"NVIDIA GeForce RTX 3090", .high, 72, 2020, 1499, 799⟩),
  ("nvidia geforce rtx 3080 ti", ⟨"NVIDIA GeForce RTX 3080 Ti", .high, 70, 2021, 1199, 549⟩),
  ("nvidia geforce rtx 3080", ⟨"NVIDIA GeForce RTX 3080", .high, 67, 2020, 699, 499⟩),
  ("nvidia geforce rtx 3070 ti", ⟨"NVIDIA GeForce RTX 3070 Ti", .mid, 62, 2021, 599, 369⟩),
  ("nvidia geforce rtx 3070", ⟨"NVIDIA GeForce RTX 3070", .mid, 58, 2020, 499, 329⟩),
  ("nvidia geforce rtx 3060 ti", ⟨"NVIDIA GeForce RTX 3060 Ti", .mid, 52, 2020, 399, 269⟩),
  ("nvidia geforce rtx 3060", ⟨"NVIDIA GeForce RTX 3060", .mid, 44, 2021, 329, 229⟩),
  ("nvidia geforce gtx 1660 super", ⟨"NVIDIA GeForce GTX 1660 SUPER", .low, 30, 2019, 229, 139⟩),
  ("nvidia geforce gtx 1650", ⟨"NVIDIA GeForce GTX 1650", .very_low, 20, 2019, 149, 99⟩),
  ("intel arc b580", ⟨"Intel Arc B580", .mid, 46, 2024, 249, 249⟩),
  ("intel arc b570", ⟨"Intel Arc B570", .mid, 42, 2025, 219, 219⟩),
  ("intel arc a770", ⟨"Intel Arc A770", .mid, 42, 2022, 349, 219⟩),
  ("amd radeon rx 9070 xt", ⟨"AMD Radeon RX 9070 XT", .high, 76, 2025, 549, 579⟩),
  ("amd radeon rx 9070", ⟨"AMD Radeon RX 9070", .high, 68, 2025, 449, 479⟩),
  ("amd radeon rx 9060 xt", ⟨"AMD Radeon RX 9060 XT", .mid, 55, 2025, 349, 349⟩),
  ("amd radeon rx 7900 xtx", ⟨"AMD Radeon RX 7900 XTX", .very_high, 85, 2022, 999, 849⟩),
  ("amd radeon rx 7900 xt", ⟨"AMD Radeon RX 7900 XT", .high, 78, 2022, 899, 699⟩),
  ("amd radeon rx 7800 xt", ⟨"AMD Radeon RX 7800 XT", .high, 65, 2023, 499, 429⟩),
  ("amd radeon rx 7700 xt", ⟨"AMD Radeon RX 7700 XT", .mid, 58, 2023, 449, 379⟩),
  ("amd radeon rx 7600", ⟨"AMD Radeon RX 7600", .mid, 45, 2023, 269, 239⟩),
  ("amd radeon rx 6950 xt", ⟨"AMD Radeon RX 6950 XT", .high, 70, 2022, 1099, 499⟩),
  ("amd radeon rx 6800 xt", ⟨"AMD Radeon RX 6800 XT", .high, 65, 2020, 649, 389⟩),
  ("amd radeon rx 6700 xt", ⟨"AMD Radeon RX 6700 XT", .mid, 48, 2021, 479, 249⟩),
  ("amd radeon rx 6600", ⟨"AMD Radeon RX 6600", .low, 35, 2021, 329, 169⟩)
]

/-- `lookupCPU` from the source. -/
def lookupCPU (modelName : String) : Option HardwareEntry :=
  lookupIn cpuDatabase modelName

/-- `lookupGPU` from the source. -/
def lookupGPU (modelName : String) : Option HardwareEntry :=
  lookupIn gpuDatabase modelName

/-! ### Helpers (analysis.ts) -/

/-- `average(nums)`: arithmetic mean, `0` for the empty list. -/
def average (nums : List Rat) : Rat :=
  if nums.length = 0 then 0 else nums.sum / (nums.length : Rat)

/-- `clamp(value, min, max) = Math.max(min, Math.min(max, value))`. -/
def clamp (value lo hi : Int) : Int :=
  max lo (min hi value)

/-! ### Rule evaluators (analysis.ts, `detect*Bottlenecks`)

Each evaluator appends findings to a shared array in the source; here it
returns the list of the findings it would append, in the same order. -/

/-- JavaScript `model.replace(/\s+/g, "-")`: each run of whitespace
collapses to a single dash. -/
def collapseWS : List Char → List Char
  | [] => []
  | c :: cs =>
    if c.isWhitespace then
      '-' :: collapseWS (cs.dropWhile Char.isWhitespace)
    else c :: collapseWS cs
termination_by l => l.length
decreasing_by
  · exact Nat.lt_succ_of_le (List.dropWhile_sublist _).length_le
  · exact Nat.lt_succ_self _

/-- The drive-health finding id fragment:
`drive.model.replace(/\s+/g, "-").toLowerCase()`. -/
def sanitizeModel (s : String) : String :=
  String.mk ((collapseWS s.data).map Char.toLower)

/-- The `cpu-high-usage` finding record. -/
def cpuHighUsageFinding : Bottleneck :=
  ⟨"cpu-high-usage", .cpu, .critical, .medium, "$0 - $400"⟩

/-- The `cpu-moderate-usage` finding record. -/
def cpuModerateUsageFinding : Bottleneck :=
  ⟨"cpu-moderate-usage", .cpu, .warning, .easy, "$0"⟩

/-- The `cpu-gpu-tier-mismatch` finding record. -/
def cpuGpuTierMismatchFinding : Bottleneck :=
  ⟨"cpu-gpu-tier-mismatch", .cpu, .warning, .hard, "$200 - $500+"⟩

/-- The `cpu-not-boosting` finding record. -/
def cpuNotBoostingFinding : Bottleneck :=
  ⟨"cpu-not-boosting", .cpu, .warning, .easy, "$0"⟩

/-- The `gpu-limited` finding record. -/
def gpuLimitedFinding : Bottleneck :=
  ⟨"gpu-limited", .gpu, .info, .easy, "$0 - $800+"⟩

/-- The `gpu-vram-full` finding record. -/
def gpuVramFullFinding : Bottleneck :=
  ⟨"gpu-vram-full", .gpu, .warning, .easy, "$0"⟩

/-- The `gpu-cpu-tier-mismatch` finding record. -/
def gpuCpuTierMismatchFinding : Bottleneck :=
  ⟨"gpu-cpu-tier-mismatch", .gpu, .warning, .hard, "$300 - $800+"⟩

/-- The `ram-single-channel` finding record. -/
def ramSingleChannelFinding : Bottleneck :=
  ⟨"ram-single-channel", .ram, .critical, .medium, "$25 - $60"⟩

/-- The `ram-low-capacity` finding record. -/
def ramLowCapacityFinding : Bottleneck :=
  ⟨"ram-low-capacity", .ram, .warning, .medium, "$30 - $80"⟩

/-- The `ram-high-usage` finding record. -/
def ramHighUsageFinding : Bottleneck :=
  ⟨"ram-high-usage", .ram, .warning, .easy, "$0 - $60"⟩

/-- The `ram-slow-speed` finding record. -/
def ramSlowSpeedFinding : Bottleneck :=
  ⟨"ram-slow-speed", .ram, .critical, .easy, "$0"⟩

/-- The `ram-slow-speed-ddr5` finding record. -/
def ramSlowSpeedDdr5Finding : Bottleneck :=
  ⟨"ram-slow-speed-ddr5", .ram, .critical, .easy, "$0"⟩

/-- The `storage-hdd-boot` finding record. -/
def storageHddBootFinding : Bottleneck :=
  ⟨"storage-hdd-boot", .storage, .critical, .medium, "$25 - $70"⟩

/-- The `storage-boot-almost-full` finding record. -/
def storageBootAlmostFullFinding : Bottleneck :=
  ⟨"storage-boot-almost-full", .storage, .warning, .easy, "$0 - $80"⟩

/-- The `storage-boot-getting-full` finding record. -/
def storageBootGettingFullFinding : Bottleneck :=
  ⟨"storage-boot-getting-full", .storage, .info, .easy, "$0"⟩

/-- The `storage-no-nvme` finding record. -/
def storageNoNvmeFinding : Bottleneck :=
  ⟨"storage-no-nvme", .storage, .info, .medium, "$40 - $100"⟩

/-- The `thermal-cpu-critical` finding record. -/
def thermalCpuCriticalFinding : Bottleneck :=
  ⟨"thermal-cpu-critical", .thermal, .critical, .medium, "$5 - $80"⟩

/-- The `thermal-cpu-warm` finding record. -/
def thermalCpuWarmFinding : Bottleneck :=
  ⟨"thermal-cpu-warm", .thermal, .info, .easy, "$0 - $20"⟩

/-- The `thermal-gpu-hot` finding record. -/
def thermalGpuHotFinding : Bottleneck :=
  ⟨"thermal-gpu-hot", .thermal, .warning, .medium, "$0 - $15"⟩

/-- The `thermal-gpu-warm` finding record. -/
def thermalGpuWarmFinding : Bottleneck :=
  ⟨"thermal-gpu-warm", .thermal, .info, .easy, "$0 - $20"⟩

/-- The `settings-power-plan` finding record. -/
def settingsPowerPlanFinding : Bottleneck :=
  ⟨"settings-power-plan", .settings, .warning, .easy, "$0"⟩

/-- The `settings-xmp-off` finding record. -/
def settingsXmpOffFinding : Bottleneck :=
  ⟨"settings-xmp-off", .settings, .critical, .easy, "$0"⟩

/-- The `settings-rebar-off` finding record. -/
def settingsRebarOffFinding : Bottleneck :=
  ⟨"settings-rebar-off", .settings, .info, .easy, "$0"⟩

/-- The `settings-gpu-scheduling` finding record. -/
def settingsGpuSchedulingFinding : Bottleneck :=
  ⟨"settings-gpu-scheduling", .settings, .info, .easy, "$0"⟩

/-- The `settings-game-mode-off` finding record. -/
def settingsGameModeOffFinding : Bottleneck :=
  ⟨"settings-game-mode-off", .settings, .info, .easy, "$0"⟩

/-- The per-drive health finding record (id interpolates the sanitized
drive model). -/
def storageHealthFinding (model : String) : Bottleneck :=
  ⟨"storage-health-" ++ sanitizeModel model, .storage, .critical, .medium,
   "$40 - $150"⟩

/-- `detectCPUBottlenecks` (analysis.ts lines 64-155). -/
def detectCPUBottlenecks (scan : SystemScan)
    (cpuEntry gpuEntry : Option HardwareEntry) : List Bottleneck :=
  let avgCpuUsage := average scan.cpu.usage_per_core
  let gpuUtil := scan.gpu.gpu_utilization_pct
  (if avgCpuUsage > 90 ∧ gpuUtil < 60 then
    [cpuHighUsageFinding]
  else if avgCpuUsage > 80 ∧ gpuUtil < 70 then
    [cpuModerateUsageFinding]
  else []) ++
  (match cpuEntry, gpuEntry with
   | some c, some g =>
     if tierIndex g.tier - tierIndex c.tier ≥ 2 then
       [cpuGpuTierMismatchFinding]
     else []
   | _, _ => []) ++
  (if scan.cpu.current_clock_ghz > 0 ∧ scan.cpu.max_boost_clock_ghz > 0 ∧
      scan.cpu.current_clock_ghz < scan.cpu.max_boost_clock_ghz * (0.85 : Rat) ∧
      avgCpuUsage > 50 then
    [cpuNotBoostingFinding]
  else [])

/-- `detectGPUBottlenecks` (analysis.ts lines 159-233). -/
def detectGPUBottlenecks (scan : SystemScan)
    (cpuEntry gpuEntry : Option HardwareEntry) : List Bottleneck :=
  let avgCpuUsage := average scan.cpu.usage_per_core
  let gpuUtil := scan.gpu.gpu_utilization_pct
  (if gpuUtil > 95 ∧ avgCpuUsage < 60 then
    [gpuLimitedFinding]
  else []) ++
  (if scan.gpu.vram_total_gb > 0 ∧
      scan.gpu.vram_used_gb / scan.gpu.vram_total_gb > (0.9 : Rat) then
    [gpuVramFullFinding]
  else []) ++
  (match cpuEntry, gpuEntry with
   | some c, some g =>
     if tierIndex c.tier - tierIndex g.tier ≥ 2 then
       [gpuCpuTierMismatchFinding]
     else []
   | _, _ => [])

/-- `detectRAMBottlenecks` (analysis.ts lines 237-338). -/
def detectRAMBottlenecks (scan : SystemScan) : List Bottleneck :=
  (if scan.ram.channel_mode = .single then
    [ramSingleChannelFinding]
  else []) ++
  (if scan.ram.total_gb < 16 then
    [ramLowCapacityFinding]
  else []) ++
  (if scan.ram.usage_percent > 85 then
    [ramHighUsageFinding]
  else []) ++
  (if containsStr (toLowerStr scan.ram.form_factor) "ddr4" ∧ scan.ram.speed_mhz < 3000 then
    [ramSlowSpeedFinding]
  else []) ++
  (if containsStr (toLowerStr scan.ram.form_factor) "ddr5" ∧ scan.ram.speed_mhz < 4800 then
    [ramSlowSpeedDdr5Finding]
  else [])

/-- `detectStorageBottlenecks` (analysis.ts lines 342-445).  `bootDrive`
is `scan.storage.find(...)`: the first drive carrying the boot flag. -/
def detectStorageBottlenecks (scan : SystemScan) : List Bottleneck :=
  let bootDrive := scan.storage.find? (fun d => d.is_boot_drive)
  (match bootDrive with
   | some d =>
     if d.type = .hdd then
       [storageHddBootFinding]
     else []
   | none => []) ++
  (match bootDrive with
   | some d =>
     if d.capacity_gb > 0 then
       let usagePct := d.used_gb / d.capacity_gb
       if usagePct > (0.9 : Rat) then [storageBootAlmostFullFinding]
       else if usagePct > (0.8 : Rat) then [storageBootGettingFullFinding]
       else []
     else []
   | none => []) ++
  (if ¬ scan.storage.any (fun d => d.type == .nvme_ssd) then
    [storageNoNvmeFinding]
  else []) ++
  scan.storage.filterMap (fun d =>
    match d.health_status with
    | some h =>
      if h != "" && !(["good", "ok", "healthy"].contains (toLowerStr h)) then
        some (storageHealthFinding d.model)
      else none
    | none => none)

/-- `detectThermalBottlenecks` (analysis.ts lines 449-524). -/
def detectThermalBottlenecks (scan : SystemScan) : List Bottleneck :=
  (match scan.cpu.current_temp_c with
   | some t =>
     if t > 85 then
       [thermalCpuCriticalFinding]
     else if t > 75 then
       [thermalCpuWarmFinding]
     else []
   | none => []) ++
  (match scan.gpu.current_temp_c with
   | some t =>
     if t > 85 then
       [thermalGpuHotFinding]
     else if t > 80 then
       [thermalGpuWarmFinding]
     else []
   | none => [])

/-- `detectSettingsBottlenecks` (analysis.ts lines 528-632). -/
def detectSettingsBottlenecks (scan : SystemScan) : List Bottleneck :=
  let powerPlan := toLowerStr scan.os.power_plan
  (if !(containsStr powerPlan "high performance") && !(containsStr powerPlan "ultimate") then
    [settingsPowerPlanFinding]
  else []) ++
  (if scan.bios_settings.xmp_enabled == some false then
    [settingsXmpOffFinding]
  else []) ++
  (if scan.bios_settings.resizable_bar == some false then
    [settingsRebarOffFinding]
  else []) ++
  (if scan.os.hw_accelerated_gpu_scheduling == some false then
    [settingsGpuSchedulingFinding]
  else []) ++
  (if scan.os.game_mode == some false then
    [settingsGameModeOffFinding]
  else [])

/-! ### Recommendation builder (analysis.ts, `buildRecommendations`) -/

/-- `Math.min(...prices)` over a price list.  The source only evaluates
it behind an `upgrades.length > 0` guard, so the empty case (JavaScript
`Infinity`) never arises; it is given an arbitrary value here. -/
def jsMin : List Rat → Rat
  | [] => 0
  | x :: xs => xs.foldl min x

/-- `Math.max(...prices)` over a price list (see `jsMin`). -/
def jsMax : List Rat → Rat
  | [] => 0
  | x :: xs => xs.foldl max x

/-- A recommendation before its priority is assigned. -/
structure RecItem where
  id : String
  tier : RecTier
  estimated_cost : CostDisplay
deriving DecidableEq

/-- `buildRecommendations` (analysis.ts lines 636-834).  The source
pushes records while incrementing a `priority` counter on every push;
here the conditional pushes are collected first and the priorities
`1, 2, …` are assigned in push order at the end. -/
def buildRecommendations (scan : SystemScan) (bottlenecks : List Bottleneck)
    (cpuEntry gpuEntry : Option HardwareEntry) : List Recommendation :=
  let hasCritical := fun (id : String) =>
    bottlenecks.any (fun b => b.id == id && b.severity == .critical)
  let has := fun (id : String) => bottlenecks.any (fun b => b.id == id)
  let items : List RecItem :=
    (if has "settings-xmp-off" || hasCritical "ram-slow-speed" ||
        hasCritical "ram-slow-speed-ddr5" then
      [{ id := "rec-enable-xmp", tier := .free, estimated_cost := .text "$0" }]
    else []) ++
    (if has "settings-power-plan" then
      [{ id := "rec-power-plan", tier := .free, estimated_cost := .text "$0" }]
    else []) ++
    (if has "settings-rebar-off" then
      [{ id := "rec-enable-rebar", tier := .free, estimated_cost := .text "$0" }]
    else []) ++
    (if has "settings-gpu-scheduling" then
      [{ id := "rec-gpu-scheduling", tier := .free, estimated_cost := .text "$0" }]
    else []) ++
    (if has "cpu-not-boosting" then
      [{ id := "rec-check-boost", tier := .free, estimated_cost := .text "$0" }]
    else []) ++
    (if has "thermal-cpu-critical" then
      [{ id := "rec-cpu-cooling", tier := .cheap, estimated_cost := .text "$5 - $45" }]
    else []) ++
    (if has "ram-single-channel" then
      [{ id := "rec-second-ram-stick", tier := .cheap, estimated_cost := .text "$25 - $60" }]
    else []) ++
    (if has "ram-low-capacity" then
      [{ id := "rec-more-ram", tier := .cheap, estimated_cost := .text "$35 - $50" }]
    else []) ++
    (if has "storage-hdd-boot" then
      [{ id := "rec-ssd-boot", tier := .cheap, estimated_cost := .text "$25 - $60" }]
    else []) ++
    ((match cpuEntry with
     | some c =>
       if has "cpu-high-usage" || has "cpu-gpu-tier-mismatch" then
         let upgrades := getUpgrades c cpuDatabase 2
         if upgrades.length > 0 then
           let prices := upgrades.map (fun u => u.current_price_approx)
           [{ id := "rec-cpu-upgrade", tier := .upgrade,
              estimated_cost := .span (jsMin prices) (jsMax prices) }]
         else []
       else []
     | none => []) : List RecItem) ++
    ((match gpuEntry with
     | some g =>
       if has "gpu-limited" || has "gpu-cpu-tier-mismatch" then
         let upgrades := getUpgrades g gpuDatabase 2
         if upgrades.length > 0 then
           let prices := upgrades.map (fun u => u.current_price_approx)
           [{ id := "rec-gpu-upgrade", tier := .upgrade,
              estimated_cost := .span (jsMin prices) (jsMax prices) }]
         else []
       else []
     | none => []) : List RecItem)
  items.enum.map (fun p =>
    { id := p.2.id, tier := p.2.tier, estimated_cost := p.2.estimated_cost,
      priority := p.1 + 1 })

/-! ### Scorer (analysis.ts, `calculateScore`)

The source computes each subsystem score by sequential mutable
subtraction from a base, then clamps; the helpers below name each
deduction and the subsystem scores are the clamped base-minus-deductions
sums, which is the same computation. -/

/-- Tier→base-score table (analysis.ts lines 854-861 and 885-892).  The
`?? 14` default of the source is unreachable here because `tier` ranges
over the five-value enum, which the table covers totally. -/
def tierScore : HardwareTier → Int
  | .very_high => 22
  | .high => 18
  | .mid => 14
  | .low => 10
  | .very_low => 6

/-- CPU base: tier table when a catalog entry was found, otherwise the
initial value `25` is left untouched (analysis.ts lines 844, 853-862). -/
def cpuBaseScore : Option HardwareEntry → Int
  | some e => tierScore e.tier
  | none => 25

/-- CPU thermal penalty (analysis.ts lines 865-869). -/
def cpuThermalDed : Option Rat → Int
  | some t => if t > 85 then 5 else if t > 75 then 2 else 0
  | none => 0

/-- CPU boost-clock penalty (analysis.ts lines 872-878); note the scorer
does not require the `avg > 50` condition of the detector. -/
def cpuBoostDed (cpu : CPUInfo) : Int :=
  if cpu.current_clock_ghz > 0 ∧ cpu.max_boost_clock_ghz > 0 ∧
     cpu.current_clock_ghz < cpu.max_boost_clock_ghz * (0.85 : Rat) then 3 else 0

/-- GPU base (analysis.ts lines 845, 884-893). -/
def gpuBaseScore : Option HardwareEntry → Int
  | some e => tierScore e.tier
  | none => 25

/-- GPU thermal penalty (analysis.ts lines 896-900). -/
def gpuThermalDed : Option Rat → Int
  | some t => if t > 85 then 4 else if t > 80 then 2 else 0
  | none => 0

/-- GPU VRAM-pressure penalty (analysis.ts lines 903-908). -/
def vramDed (gpu : GPUInfo) : Int :=
  if gpu.vram_total_gb > 0 ∧
     gpu.vram_used_gb / gpu.vram_total_gb > (0.9 : Rat) then 3 else 0

/-- RAM DDR4 speed deduction (analysis.ts lines 921-925). -/
def ramDDR4Ded (ram : RAMInfo) : Int :=
  let isDDR4 := containsStr (toLowerStr ram.form_factor) "ddr4"
  if isDDR4 ∧ ram.speed_mhz < 3000 then 8
  else if isDDR4 ∧ ram.speed_mhz < 3200 then 3
  else 0

/-- RAM DDR5 speed deduction (analysis.ts lines 927-931). -/
def ramDDR5Ded (ram : RAMInfo) : Int :=
  let isDDR5 := containsStr (toLowerStr ram.form_factor) "ddr5"
  if isDDR5 ∧ ram.speed_mhz < 4800 then 8
  else if isDDR5 ∧ ram.speed_mhz < 5600 then 3
  else 0

/-- RAM single-channel deduction (analysis.ts lines 934-936). -/
def ramChannelDed (ram : RAMInfo) : Int :=
  if ram.channel_mode = .single then 10 else 0

/-- RAM capacity deduction (analysis.ts lines 939-943). -/
def ramCapacityDed (ram : RAMInfo) : Int :=
  if ram.total_gb < 16 then 5 else if ram.total_gb < 32 then 1 else 0

/-- RAM usage deduction (analysis.ts lines 946-948). -/
def ramUsageDed (ram : RAMInfo) : Int :=
  if ram.usage_percent > 85 then 3 else 0

/-- Storage base from boot-drive type (analysis.ts lines 956-964). -/
def storageBase (d : StorageInfo) : Int :=
  match d.type with
  | .nvme_ssd => 15
  | .sata_ssd => 10
  | .hdd => 5
  | .unknown => 8

/-- Storage free-space penalty (analysis.ts lines 967-971). -/
def storageFullnessDed (d : StorageInfo) : Int :=
  if d.capacity_gb > 0 then
    let usagePct := d.used_gb / d.capacity_gb
    if usagePct > (0.9 : Rat) then 3 else if usagePct > (0.8 : Rat) then 1 else 0
  else 0

/-- Storage health penalty (analysis.ts lines 974-979). -/
def storageHealthDed (d : StorageInfo) : Int :=
  match d.health_status with
  | some h =>
    if h != "" && !(["good", "ok", "healthy"].contains (toLowerStr h)) then 5
    else 0
  | none => 0

/-- Settings power-plan credit (analysis.ts lines 989-996). -/
def powerPlanCredit (plan : String) : Int :=
  let p := toLowerStr plan
  if containsStr p "ultimate" then 3
  else if containsStr p "high performance" then 3
  else if containsStr p "balanced" then 1
  else 0

/-- Settings XMP credit (analysis.ts lines 999-1005): +5 explicitly
true, +2 unknown, +0 explicitly false. -/
def xmpCredit : Option Bool → Int
  | some true => 5
  | none => 2
  | some false => 0

/-- Settings driver credit (analysis.ts lines 1007-1010): credit for a
non-empty driver version string. -/
def driverCredit (v : String) : Int :=
  if v != "" then 2 else 0

/-- Settings resizable-BAR credit (analysis.ts lines 1012-1015). -/
def rebarCredit : Option Bool → Int
  | some true => 2
  | _ => 0

/-- Settings game-mode credit (analysis.ts lines 1017-1020). -/
def gameModeCredit : Option Bool → Int
  | some true => 1
  | _ => 0

/-- Settings HW-accelerated GPU-scheduling credit
(analysis.ts lines 1022-1025). -/
def hagsCredit : Option Bool → Int
  | some true => 2
  | _ => 0

/-- CPU subsystem score (analysis.ts lines 850-880). -/
def cpuSubscore (scan : SystemScan) (cpuEntry : Option HardwareEntry) : Int :=
  clamp (cpuBaseScore cpuEntry - cpuThermalDed scan.cpu.current_temp_c -
    cpuBoostDed scan.cpu) 0 25

/-- GPU subsystem score (analysis.ts lines 882-910). -/
def gpuSubscore (scan : SystemScan) (gpuEntry : Option HardwareEntry) : Int :=
  clamp (gpuBaseScore gpuEntry - gpuThermalDed scan.gpu.current_temp_c -
    vramDed scan.gpu) 0 25

/-- RAM subsystem score (analysis.ts lines 912-950). -/
def ramSubscore (scan : SystemScan) : Int :=
  clamp (20 - ramDDR4Ded scan.ram - ramDDR5Ded scan.ram -
    ramChannelDed scan.ram - ramCapacityDed scan.ram - ramUsageDed scan.ram) 0 20

/-- Storage subsystem score (analysis.ts lines 952-982): the initial
value `15` survives when no drive carries the boot flag. -/
def storageSubscore (scan : SystemScan) : Int :=
  clamp
    (match scan.storage.find? (fun d => d.is_boot_drive) with
     | some d => storageBase d - storageFullnessDed d - storageHealthDed d
     | none => 15) 0 15

/-- Settings subsystem score (analysis.ts lines 984-1027), additive
from 0. -/
def settingsSubscore (scan : SystemScan) : Int :=
  clamp (powerPlanCredit scan.os.power_plan +
    xmpCredit scan.bios_settings.xmp_enabled +
    driverCredit scan.gpu.driver_version +
    rebarCredit scan.bios_settings.resizable_bar +
    gameModeCredit scan.os.game_mode +
    hagsCredit scan.os.hw_accelerated_gpu_scheduling) 0 15

/-- `getGrade` (analysis.ts lines 1050-1086), as the pair of grade and
description. -/
def getGrade (total : Int) : String × String :=
  if total ≥ 90 then
    ("A", "Your system is optimized. Nice work.")
  else if total ≥ 80 then
    ("A-", "Great setup. A few tweaks could squeeze out more performance.")
  else if total ≥ 70 then
    ("B", "Good, but performance is being left on the table.")
  else if total ≥ 60 then
    ("C", "Several bottlenecks detected. Easy fixes available.")
  else
    ("D", "Significant issues found. Major free performance gains possible.")

/-- `calculateScore` (analysis.ts lines 838-1046).  The `bottlenecks`
parameter is accepted and ignored, as in the source. -/
def calculateScore (scan : SystemScan) (bottlenecks : List Bottleneck)
    (cpuEntry gpuEntry : Option HardwareEntry) : PerformanceScore :=
  let cpuScore := cpuSubscore scan cpuEntry
  let gpuScore := gpuSubscore scan gpuEntry
  let ramScore := ramSubscore scan
  let storageScore := storageSubscore scan
  let settingsScore := settingsSubscore scan
  let total := cpuScore + gpuScore + ramScore + storageScore + settingsScore
  let g := getGrade total
  { total := total, grade := g.1, grade_description := g.2,
    breakdown := { cpu := cpuScore, gpu := gpuScore, ram := ramScore,
                   storage := storageScore, settings := settingsScore } }

/-! ### Main entry point (analysis.ts, `analyzeScan`) -/

/-- Severity rank used by the bottleneck sort (analysis.ts lines 39-44). -/
def severityOrder : Severity → Nat
  | .critical => 0
  | .warning => 1
  | .info => 2
  | .good => 3

/-- Tier rank used by the recommendation sort (analysis.ts line 50). -/
def tierOrder : RecTier → Nat
  | .free => 0
  | .cheap => 1
  | .upgrade => 2

/-- The bottleneck sort comparator (analysis.ts lines 45-47) as a total
preorder for the stable sort. -/
def bottleneckLE (a b : Bottleneck) : Prop :=
  severityOrder a.severity ≤ severityOrder b.severity

instance : DecidableRel bottleneckLE :=
  fun a b => inferInstanceAs (Decidable (_ ≤ _))

instance : IsTotal Bottleneck bottleneckLE :=
  ⟨fun a b => Nat.le_total _ _⟩

instance : IsTrans Bottleneck bottleneckLE :=
  ⟨fun _ _ _ => Nat.le_trans⟩

/-- The recommendation sort comparator (analysis.ts lines 51-55): by
tier, then by priority. -/
def recommendationLE (a b : Recommendation) : Prop :=
  tierOrder a.tier < tierOrder b.tier ∨
    (tierOrder a.tier = tierOrder b.tier ∧ a.priority ≤ b.priority)

instance : DecidableRel recommendationLE :=
  fun a b => inferInstanceAs (Decidable (_ ∨ _))

instance : IsTotal Recommendation recommendationLE :=
  ⟨fun a b => by unfold recommendationLE; omega⟩

instance : IsTrans Recommendation recommendationLE :=
  ⟨fun a b c hab hbc => by
    unfold recommendationLE at *
    omega⟩

/-- The findings of the six evaluators concatenated in invocation order
(analysis.ts lines 28-33), before sorting. -/
def detectedBottlenecks (scan : SystemScan) : List Bottleneck :=
  let cpuEntry := lookupCPU scan.cpu.model_name
  let gpuEntry := lookupGPU scan.gpu.model_name
  detectCPUBottlenecks scan cpuEntry gpuEntry ++
  detectGPUBottlenecks scan cpuEntry gpuEntry ++
  detectRAMBottlenecks scan ++
  detectStorageBottlenecks scan ++
  detectThermalBottlenecks scan ++
  detectSettingsBottlenecks scan

/-- `analyzeScan` (analysis.ts lines 20-60). -/
def analyzeScan (scan : SystemScan) : AnalysisResult :=
  let cpuEntry := lookupCPU scan.cpu.model_name
  let gpuEntry := lookupGPU scan.gpu.model_name
  let bottlenecks := detectedBottlenecks scan
  let recommendations := buildRecommendations scan bottlenecks cpuEntry gpuEntry
  let sortedBottlenecks := bottlenecks.insertionSort bottleneckLE
  let sortedRecommendations := recommendations.insertionSort recommendationLE
  let score := calculateScore scan sortedBottlenecks cpuEntry gpuEntry
  { score := score, bottlenecks := sortedBottlenecks,
    recommendations := sortedRecommendations }

/-! ### Concrete scans and catalog fragments used by witnesses and
counterexamples -/

/-- A healthy, fully-optimized scan whose CPU and GPU model names have
no catalog entry. -/
def baseCPU : CPUInfo :=
  { model_name := "QuantumCore Z1", architecture := "x86_64", physical_cores := 8,
    logical_cores := 16, base_clock_ghz := 3, max_boost_clock_ghz := 0,
    current_clock_ghz := 0, cache_l1 := none, cache_l2 := none, cache_l3 := none,
    current_temp_c := none, usage_per_core := [50], power_draw_w := none }

def baseGPU : GPUInfo :=
  { model_name := "PixelStorm V2", vram_total_gb := 8, vram_used_gb := 4,
    gpu_clock_mhz := 1800, memory_clock_mhz := 7000, current_temp_c := none,
    fan_speed_pct := none, driver_version := "555.85", gpu_utilization_pct := 80,
    pcie_generation := none, pcie_link_width := none }

def baseRAM : RAMInfo :=
  { total_gb := 32, speed_mhz := 6000, num_sticks := 2, num_slots := 4,
    channel_mode := .dual, form_factor := "DIMM DDR5", timings := none,
    current_used_gb := 16, usage_percent := 50 }

def baseDrive : StorageInfo :=
  { model := "Speedy NVMe 1TB", type := .nvme_ssd, capacity_gb := 1000,
    used_gb := 500, free_gb := 500, interface := "PCIe 4.0",
    health_status := some "Good", is_boot_drive := true }

def baseScan : SystemScan :=
  { scan_id := "scan-1", timestamp := "2026-01-01", scan_duration_seconds := 3,
    cpu := baseCPU, gpu := baseGPU, ram := baseRAM, storage := [baseDrive],
    motherboard := { model := "B650 Board", chipset := some "B650",
                     bios_version := "1.0", bios_date := none },
    os := { windows_version := "11", build_number := "26100",
            is_up_to_date := some true, power_plan := "High Performance",
            game_mode := some true, hw_accelerated_gpu_scheduling := some true,
            virtual_memory_gb := none },
    network := { connection_type := "Ethernet", speed_mbps := none,
                 latency_ms := none },
    bios_settings := { xmp_enabled := some true, resizable_bar := some true,
                       tpm_status := some true, virtualization := some true,
                       secure_boot := some true } }

/-- The single-channel JEDEC-speed DDR4 scenario of the spec. -/
def scanC4 : SystemScan :=
  { baseScan with ram :=
    { total_gb := 16, speed_mhz := 2133, num_sticks := 1, num_slots := 4,
      channel_mode := .single, form_factor := "DIMM DDR4", timings := none,
      current_used_gb := 32/5, usage_percent := 40 } }

def driveC7 : StorageInfo :=
  { baseDrive with capacity_gb := 0, used_gb := 0, free_gb := 0 }

/-- Zero total VRAM and a zero-capacity boot drive. -/
def scanC7 : SystemScan :=
  { baseScan with
    gpu := { baseGPU with vram_total_gb := 0, vram_used_gb := 0 },
    storage := [driveC7] }

/-- A CPU-bound scan with a catalogued CPU, triggering the CPU upgrade
recommendation. -/
def scanC9 : SystemScan :=
  { baseScan with
    cpu := { baseCPU with
             model_name := "AMD Ryzen 5 9600X"
             usage_per_core := [95, 95, 95, 95] },
    gpu := { baseGPU with gpu_utilization_pct := 50 } }

def driveC10a : StorageInfo :=
  { model := "SataBoot 500", type := .sata_ssd, capacity_gb := 500,
    used_gb := 100, free_gb := 400, interface := "SATA",
    health_status := some "Good", is_boot_drive := true }

def driveC10b : StorageInfo :=
  { model := "Old Spinner", type := .hdd, capacity_gb := 500, used_gb := 490,
    free_gb := 10, interface := "SATA", health_status := some "Caution",
    is_boot_drive := true }

/-- Two drives both carrying the boot flag. -/
def scanC10 : SystemScan :=
  { baseScan with storage := [driveC10a, driveC10b] }

/-- A mid-tier entry used to probe `getUpgrades`. -/
def upgradeCurrentEx : HardwareEntry :=
  ⟨"Current CPU", .mid, 50, 2020, 100, 100⟩

/-- A higher-tier entry with a fractional price, where the JavaScript
`price || 1` guard and `max(price, 1)` disagree. -/
def upgradeEntryA : HardwareEntry :=
  ⟨"Part A", .high, 10, 2021, 1, 1/2⟩

def upgradeEntryB : HardwareEntry :=
  ⟨"Part B", .high, 15, 2021, 1, 1⟩

def upgradeDbEx : List (String × HardwareEntry) :=
  [("part a", upgradeEntryA), ("part b", upgradeEntryB)]

def noUpgradeDbEx : List (String × HardwareEntry) :=
  [("part c", ⟨"Part C", .low, 30, 2019, 50, 40⟩)]

/-- The CPU upgrade recommendation the engine produces on `scanC9`. -/
def recC9 : Recommendation :=
  ⟨"rec-cpu-upgrade", .upgrade, .span 329 339, 1⟩

/-! ### Basic lemmas -/

lemma le_clamp (value lo hi : Int) : lo ≤ clamp value lo hi :=
  le_max_left _ _

lemma clamp_le (value lo hi : Int) (h : lo ≤ hi) : clamp value lo hi ≤ hi :=
  max_le h (min_le_left _ _)

lemma analyzeScan_bottlenecks (scan : SystemScan) :
    (analyzeScan scan).bottlenecks =
      (detectedBottlenecks scan).insertionSort bottleneckLE := by
  simp only [analyzeScan]

lemma analyzeScan_recommendations (scan : SystemScan) :
    (analyzeScan scan).recommendations =
      (buildRecommendations scan (detectedBottlenecks scan)
        (lookupCPU scan.cpu.model_name)
        (lookupGPU scan.gpu.model_name)).insertionSort recommendationLE := by
  simp only [analyzeScan]

lemma breakdown_cpu (scan : SystemScan) :
    (analyzeScan scan).score.breakdown.cpu =
      cpuSubscore scan (lookupCPU scan.cpu.model_name) := rfl

lemma breakdown_gpu (scan : SystemScan) :
    (analyzeScan scan).score.breakdown.gpu =
      gpuSubscore scan (lookupGPU scan.gpu.model_name) := rfl

lemma breakdown_ram (scan : SystemScan) :
    (analyzeScan scan).score.breakdown.ram = ramSubscore scan := rfl

lemma breakdown_storage (scan : SystemScan) :
    (analyzeScan scan).score.breakdown.storage = storageSubscore scan := rfl

lemma breakdown_settings (scan : SystemScan) :
    (analyzeScan scan).score.breakdown.settings = settingsSubscore scan := rfl

lemma score_total_eq (scan : SystemScan) :
    (analyzeScan scan).score.total =
      cpuSubscore scan (lookupCPU scan.cpu.model_name) +
      gpuSubscore scan (lookupGPU scan.gpu.model_name) +
      ramSubscore scan + storageSubscore scan + settingsSubscore scan := rfl

/-! ### Claim C2 -/

/-- C2: for every scan, each breakdown value lies within its declared
range (cpu and gpu in [0,25], ram in [0,20], storage and settings in
[0,15]) because each subsystem score is clamped before summation; the
total equals the sum of the five breakdown values, hence lies in
[0,100]. -/
theorem score_breakdown_invariants (scan : SystemScan) :
    (0 ≤ (analyzeScan scan).score.breakdown.cpu ∧
      (analyzeScan scan).score.breakdown.cpu ≤ 25) ∧
    (0 ≤ (analyzeScan scan).score.breakdown.gpu ∧
      (analyzeScan scan).score.breakdown.gpu ≤ 25) ∧
    (0 ≤ (analyzeScan scan).score.breakdown.ram ∧
      (analyzeScan scan).score.breakdown.ram ≤ 20) ∧
    (0 ≤ (analyzeScan scan).score.breakdown.storage ∧
      (analyzeScan scan).score.breakdown.storage ≤ 15) ∧
    (0 ≤ (analyzeScan scan).score.breakdown.settings ∧
      (analyzeScan scan).score.breakdown.settings ≤ 15) ∧
    (analyzeScan scan).score.total =
      (analyzeScan scan).score.breakdown.cpu +
      (analyzeScan scan).score.breakdown.gpu +
      (analyzeScan scan).score.breakdown.ram +
      (analyzeScan scan).score.breakdown.storage +
      (analyzeScan scan).score.breakdown.settings ∧
    0 ≤ (analyzeScan scan).score.total ∧ (analyzeScan scan).score.total ≤ 100 := by
  have hc1 : 0 ≤ cpuSubscore scan (lookupCPU scan.cpu.model_name) :=
    le_clamp _ _ _
  have hc2 : cpuSubscore scan (lookupCPU scan.cpu.model_name) ≤ 25 :=
    clamp_le _ _ _ (by norm_num)
  have hg1 : 0 ≤ gpuSubscore scan (lookupGPU scan.gpu.model_name) :=
    le_clamp _ _ _
  have hg2 : gpuSubscore scan (lookupGPU scan.gpu.model_name) ≤ 25 :=
    clamp_le _ _ _ (by norm_num)
  have hr1 : 0 ≤ ramSubscore scan := le_clamp _ _ _
  have hr2 : ramSubscore scan ≤ 20 := clamp_le _ _ _ (by norm_num)
  have hs1 : 0 ≤ storageSubscore scan := le_clamp _ _ _
  have hs2 : storageSubscore scan ≤ 15 := clamp_le _ _ _ (by norm_num)
  have ht1 : 0 ≤ settingsSubscore scan := le_clamp _ _ _
  have ht2 : settingsSubscore scan ≤ 15 := clamp_le _ _ _ (by norm_num)
  refine ⟨⟨hc1, hc2⟩, ⟨hg1, hg2⟩, ⟨hr1, hr2⟩, ⟨hs1, hs2⟩, ⟨ht1, ht2⟩, rfl, ?_, ?_⟩
  · rw [score_total_eq]
    omega
  · rw [score_total_eq]
    omega

/-! ### Claim C3: sorting -/

/-- Stability of a rank-based stable sort: filtering the sorted list by
any rank-homogeneous predicate gives the same result as filtering the
input list. -/
lemma insertionSort_filter_stable {α : Type} (r : α → α → Prop)
    [DecidableRel r] (rank : α → Nat) (hr : ∀ a b, r a b ↔ rank a ≤ rank b)
    (p : α → Bool) (hp : ∀ a b, p a = true → p b = true → rank a = rank b)
    (l : List α) :
    (l.insertionSort r).filter p = l.filter p := by
  have hpair : (l.filter p).Pairwise r := by
    apply List.pairwise_of_forall_mem_list
    intro a ha b hb
    rw [hr]
    have h := hp a b (List.of_mem_filter ha) (List.of_mem_filter hb)
    omega
  have h1 := List.sublist_insertionSort hpair (List.filter_sublist l)
  have h2 : (l.filter p).filter p = l.filter p := by
    simp [List.filter_filter]
  have h3 : List.Sublist (l.filter p) ((l.insertionSort r).filter p) := by
    have h := h1.filter p
    rwa [h2] at h
  have h4 : List.Perm ((l.insertionSort r).filter p) (l.filter p) :=
    (List.perm_insertionSort r l).filter p
  exact (h3.eq_of_length h4.length_eq.symm).symm

/-- C3: the bottleneck list returned by analyze is sorted by severity
order (critical, warning, info, good) and, within equal severity, the
original detection order (the six evaluators in invocation order, rules
in declaration order within each) is preserved; the recommendation list
is sorted by tier order (free, cheap, upgrade) with ties broken by
ascending priority. -/
theorem output_ordering (scan : SystemScan) :
    ((analyzeScan scan).bottlenecks).Pairwise
      (fun a b => severityOrder a.severity ≤ severityOrder b.severity) ∧
    (∀ sev : Severity,
      ((analyzeScan scan).bottlenecks).filter (fun b => b.severity == sev) =
        (detectedBottlenecks scan).filter (fun b => b.severity == sev)) ∧
    ((analyzeScan scan).recommendations).Pairwise
      (fun a b => tierOrder a.tier < tierOrder b.tier ∨
        (tierOrder a.tier = tierOrder b.tier ∧ a.priority ≤ b.priority)) := by
  refine ⟨?_, ?_, ?_⟩
  · rw [analyzeScan_bottlenecks]
    exact (List.sorted_insertionSort bottleneckLE
      (detectedBottlenecks scan)).imp (fun h => h)
  · intro sev
    rw [analyzeScan_bottlenecks]
    exact insertionSort_filter_stable bottleneckLE
      (fun b => severityOrder b.severity) (fun a b => Iff.rfl)
      (fun b => b.severity == sev)
      (fun a b ha hb => by
        rw [beq_iff_eq] at ha hb
        simp only []
        rw [ha, hb]) (detectedBottlenecks scan)
  · rw [analyzeScan_recommendations]
    exact (List.sorted_insertionSort recommendationLE _).imp (fun h => h)

/-! ### Claim C5: lookup characterization -/

/-- C5: catalog lookup first lower-cases and trims the input name; if
that key is present in the catalog the corresponding (first) entry is
returned; otherwise the first entry, in declared insertion order, whose
key is a substring of the normalized input or of which the normalized
input is a substring, is returned; if no such entry exists the result
is none. -/
theorem lookup_first_match (db : List (String × HardwareEntry))
    (modelName : String) :
    (∀ e, lookupIn db modelName = some e ↔
      ((∃ pre ent post, db = pre ++ ent :: post ∧
          ent.1 = trimStr (toLowerStr modelName) ∧ ent.2 = e ∧
          ∀ q ∈ pre, q.1 ≠ trimStr (toLowerStr modelName)) ∨
       ((∀ q ∈ db, q.1 ≠ trimStr (toLowerStr modelName)) ∧
        ∃ pre ent post, db = pre ++ ent :: post ∧
          fuzzyMatch (trimStr (toLowerStr modelName)) ent = true ∧ ent.2 = e ∧
          ∀ q ∈ pre, fuzzyMatch (trimStr (toLowerStr modelName)) q = false))) ∧
    (lookupIn db modelName = none ↔
      ∀ q ∈ db, q.1 ≠ trimStr (toLowerStr modelName) ∧
        fuzzyMatch (trimStr (toLowerStr modelName)) q = false) := by
  set key := trimStr (toLowerStr modelName) with hkeydef
  constructor
  · intro e
    constructor
    · intro h
      simp only [lookupIn, ← hkeydef] at h
      rcases hex : db.find? (fun p => p.1 == key) with _ | p
      · rw [hex] at h
        simp only [Option.map_eq_some'] at h
        obtain ⟨q, hq, he⟩ := h
        rw [List.find?_eq_some] at hq
        obtain ⟨hfq, as, bs, hdb, hall⟩ := hq
        have hnone := List.find?_eq_none.mp hex
        refine .inr ⟨fun q' hq' => by simpa using hnone q' hq',
          as, q, bs, hdb, hfq, he, fun q' hq' => by simpa using hall q' hq'⟩
      · rw [hex] at h
        rw [Option.some_inj] at h
        rw [List.find?_eq_some] at hex
        obtain ⟨hfp, as, bs, hdb, hall⟩ := hex
        exact .inl ⟨as, p, bs, hdb, by simpa using hfp, h,
          fun q' hq' => by simpa using hall q' hq'⟩
    · intro h
      rcases h with ⟨pre, ent, post, hdb, hkey, hent, hpre⟩ |
        ⟨hnokey, pre, ent, post, hdb, hfz, hent, hpre⟩
      · have hex : db.find? (fun p => p.1 == key) = some ent := by
          rw [List.find?_eq_some]
          exact ⟨by simpa using hkey, pre, post, hdb,
            fun a ha => by simpa using hpre a ha⟩
        simp [lookupIn, ← hkeydef, hex, hent]
      · have hex : db.find? (fun p => p.1 == key) = none :=
          List.find?_eq_none.mpr (fun x hx => by simpa using hnokey x hx)
        have hfz' : db.find? (fuzzyMatch key) = some ent := by
          rw [List.find?_eq_some]
          exact ⟨hfz, pre, post, hdb, fun a ha => by simp [hpre a ha]⟩
        simp [lookupIn, ← hkeydef, hex, hfz', hent]
  · constructor
    · intro h q hq
      simp only [lookupIn, ← hkeydef] at h
      rcases hex : db.find? (fun p => p.1 == key) with _ | p
      · rw [hex] at h
        rcases hfz : db.find? (fuzzyMatch key) with _ | q'
        · have h1 := List.find?_eq_none.mp hex q hq
          have h2 := List.find?_eq_none.mp hfz q hq
          exact ⟨by simpa using h1, by simpa using h2⟩
        · rw [hfz] at h
          simp at h
      · rw [hex] at h
        simp at h
    · intro h
      have hex : db.find? (fun p => p.1 == key) = none :=
        List.find?_eq_none.mpr (fun x hx => by simpa using (h x hx).1)
      have hfz : db.find? (fuzzyMatch key) = none :=
        List.find?_eq_none.mpr (fun x hx => by simp [(h x hx).2])
      simp [lookupIn, ← hkeydef, hex, hfz]

/-! ### Claim C6: upgrade candidates -/

/-- C6 (counterexample): with a fractional price the JavaScript guard
`price || 1` differs from `max(price, 1)`: here `getUpgrades` returns
the entries ordered `[A, B]` although the claimed key
`gaming_score / max(current_price, 1)` ranks `B` strictly above `A`, so
the output is not ordered by descending claimed value. -/
theorem getUpgrades_guard_counterexample :
    getUpgrades upgradeCurrentEx upgradeDbEx 2 = [upgradeEntryA, upgradeEntryB] ∧
    upgradeEntryA.gaming_score / max upgradeEntryA.current_price_approx 1 <
      upgradeEntryB.gaming_score / max upgradeEntryB.current_price_approx 1 := by
  constructor
  · rfl
  · decide

/-- C6 (amended): `getUpgrades` returns only entries of a strictly
higher tier than the current entry, at most `maxResults` of them,
ordered by descending value `gaming_score / (current_price_approx || 1)`
— the denominator falls back to 1 exactly when the price is 0, not via
`max(current_price, 1)` — and returns the empty list whenever no entry
has a strictly higher tier. -/
theorem getUpgrades_spec (current : HardwareEntry)
    (db : List (String × HardwareEntry)) (maxResults : Nat) :
    (∀ e ∈ getUpgrades current db maxResults,
      tierIndex current.tier < tierIndex e.tier) ∧
    (getUpgrades current db maxResults).length ≤ maxResults ∧
    (getUpgrades current db maxResults).Pairwise
      (fun a b => upgradeValue b ≤ upgradeValue a) ∧
    ((∀ q ∈ db, tierIndex q.2.tier ≤ tierIndex current.tier) →
      getUpgrades current db maxResults = []) := by
  refine ⟨?_, ?_, ?_, ?_⟩
  · intro e he
    simp only [getUpgrades] at he
    have h1 := List.mem_of_mem_take he
    rw [List.mem_insertionSort] at h1
    have h2 := List.of_mem_filter h1
    simpa using h2
  · simp only [getUpgrades]
    exact List.length_take_le _ _
  · simp only [getUpgrades]
    have hs := List.sorted_insertionSort upgradeGE
      ((db.map (fun p => p.2)).filter
        (fun e => tierIndex e.tier > tierIndex current.tier))
    have hp := hs.sublist (List.take_sublist maxResults _)
    exact hp.imp (fun h => h)
  · intro hall
    simp only [getUpgrades]
    have hf : ((db.map (fun p => p.2)).filter
        (fun e => tierIndex e.tier > tierIndex current.tier)) = [] := by
      rw [List.filter_eq_nil_iff]
      intro a ha
      rw [List.mem_map] at ha
      obtain ⟨q, hq, rfl⟩ := ha
      simpa using hall q hq
    rw [hf]
    simp

/-- C6 (witness): a catalog with no higher-tier entry yields no
upgrade candidates. -/
theorem getUpgrades_spec_witness :
    (∀ q ∈ noUpgradeDbEx, tierIndex q.2.tier ≤ tierIndex upgradeCurrentEx.tier) ∧
    getUpgrades upgradeCurrentEx noUpgradeDbEx 3 = [] :=
  ⟨by decide, (getUpgrades_spec upgradeCurrentEx noUpgradeDbEx 3).2.2.2 (by decide)⟩

/-! ### Claim C1: unknown-model fallback -/

/-- C1 (counterexample): the CPU model of `baseScan` has no catalog entry and
no thermal or boost deduction applies, yet the CPU subsystem score is
25 — the full initial value — and not the claimed unknown-tier fallback
base of 14. -/
theorem unknown_cpu_fallback_counterexample :
    lookupCPU baseScan.cpu.model_name = none ∧
    cpuThermalDed baseScan.cpu.current_temp_c = 0 ∧
    cpuBoostDed baseScan.cpu = 0 ∧
    (analyzeScan baseScan).score.breakdown.cpu = 25 ∧
    (analyzeScan baseScan).score.breakdown.cpu ≠ 14 := by
  refine ⟨by decide, by decide, by decide, ?_, ?_⟩ <;>
    · rw [breakdown_cpu]
      decide

/-- C1 (amended): an unrecognized CPU (resp. GPU) model name never
crashes the engine (the embedding is total) and yields a CPU (resp.
GPU) subsystem score computed from base 25 — the initialized full
score, left untouched when the lookup returns none — before the
thermal/boost (resp. thermal/VRAM) deductions and clamping.  The 14
value of the score table in the source is a default for a found entry whose
tier is missing from the table, which is unreachable for the five-value
tier enum. -/
theorem unknown_entry_fallback (scan : SystemScan) :
    (lookupCPU scan.cpu.model_name = none →
      (analyzeScan scan).score.breakdown.cpu =
        clamp (25 - cpuThermalDed scan.cpu.current_temp_c -
          cpuBoostDed scan.cpu) 0 25) ∧
    (lookupGPU scan.gpu.model_name = none →
      (analyzeScan scan).score.breakdown.gpu =
        clamp (25 - gpuThermalDed scan.gpu.current_temp_c -
          vramDed scan.gpu) 0 25) := by
  constructor
  · intro h
    rw [breakdown_cpu, cpuSubscore, h]
    rfl
  · intro h
    rw [breakdown_gpu, gpuSubscore, h]
    rfl

/-- C1 (witness): the amended fallback at `baseScan`, whose CPU and GPU
models are both unknown. -/
theorem unknown_entry_fallback_witness :
    (lookupCPU baseScan.cpu.model_name = none ∧
      (analyzeScan baseScan).score.breakdown.cpu =
        clamp (25 - cpuThermalDed baseScan.cpu.current_temp_c -
          cpuBoostDed baseScan.cpu) 0 25) ∧
    (lookupGPU baseScan.gpu.model_name = none ∧
      (analyzeScan baseScan).score.breakdown.gpu =
        clamp (25 - gpuThermalDed baseScan.gpu.current_temp_c -
          vramDed baseScan.gpu) 0 25) :=
  ⟨⟨by decide, (unknown_entry_fallback baseScan).1 (by decide)⟩,
   ⟨by decide, (unknown_entry_fallback baseScan).2 (by decide)⟩⟩

/-! ### Claim C4: single-channel JEDEC-speed DDR4 scenario -/

lemma mem_analyze_iff (scan : SystemScan) (b : Bottleneck) :
    b ∈ (analyzeScan scan).bottlenecks ↔ b ∈ detectedBottlenecks scan := by
  rw [analyzeScan_bottlenecks, List.mem_insertionSort]

/-- C4 (counterexample): on the single-channel DDR4-2133 16 GB
scenario both critical findings are present and the RAM score is 1, but
a capacity deduction of 1 point (16 GB < 32 GB) does apply, contrary to
the claim that no capacity or usage deduction applies. -/
theorem ram_scenario_counterexample :
    scanC4.ram.channel_mode = .single ∧ scanC4.ram.form_factor = "DIMM DDR4" ∧
    scanC4.ram.speed_mhz = 2133 ∧ scanC4.ram.total_gb = 16 ∧
    scanC4.ram.usage_percent = 40 ∧
    ramSingleChannelFinding ∈ (analyzeScan scanC4).bottlenecks ∧
    ramSlowSpeedFinding ∈ (analyzeScan scanC4).bottlenecks ∧
    ramCapacityDed scanC4.ram = 1 ∧ ramCapacityDed scanC4.ram ≠ 0 ∧
    (analyzeScan scanC4).score.breakdown.ram = 1 := by
  refine ⟨by decide, by decide, by decide, by decide, by decide, ?_, ?_, by decide,
    by decide, ?_⟩
  · rw [mem_analyze_iff]
    decide
  · rw [mem_analyze_iff]
    decide
  · rw [breakdown_ram]
    decide

/-- C4 (amended): for every scan whose RAM section has channel_mode
single, form factor "DIMM DDR4", speed 2133 MT/s, total 16 GB and usage
40%, the result contains both the single-channel critical finding and
the ram-slow-speed critical finding, and the RAM subsystem score is 1
(hence at most 2): the −8 speed and −10 single-channel deductions apply
together with a −1 capacity deduction for totals below 32 GB; the usage
deduction is zero. -/
theorem ram_scenario (scan : SystemScan)
    (hch : scan.ram.channel_mode = .single)
    (hff : scan.ram.form_factor = "DIMM DDR4")
    (hsp : scan.ram.speed_mhz = 2133)
    (htot : scan.ram.total_gb = 16)
    (huse : scan.ram.usage_percent = 40) :
    ramSingleChannelFinding ∈ (analyzeScan scan).bottlenecks ∧
    ramSlowSpeedFinding ∈ (analyzeScan scan).bottlenecks ∧
    ramUsageDed scan.ram = 0 ∧ ramCapacityDed scan.ram = 1 ∧
    (analyzeScan scan).score.breakdown.ram = 1 ∧
    (analyzeScan scan).score.breakdown.ram ≤ 2 := by
  have hram : detectRAMBottlenecks scan =
      [ramSingleChannelFinding, ramSlowSpeedFinding] := by
    simp only [detectRAMBottlenecks, hch, hff, hsp, htot, huse]
    decide
  have hmem1 : ramSingleChannelFinding ∈ detectedBottlenecks scan := by
    simp [detectedBottlenecks, hram]
  have hmem2 : ramSlowSpeedFinding ∈ detectedBottlenecks scan := by
    simp [detectedBottlenecks, hram]
  have hscore : ramSubscore scan = 1 := by
    simp only [ramSubscore, ramDDR4Ded, ramDDR5Ded, ramChannelDed,
      ramCapacityDed, ramUsageDed, hch, hff, hsp, htot, huse]
    decide
  refine ⟨(mem_analyze_iff scan _).mpr hmem1, (mem_analyze_iff scan _).mpr hmem2,
    ?_, ?_, ?_, ?_⟩
  · simp only [ramUsageDed, huse]
    decide
  · simp only [ramCapacityDed, htot]
    decide
  · rw [breakdown_ram, hscore]
  · rw [breakdown_ram, hscore]
    decide

/-- C4 (witness): the amended scenario at the concrete scan `scanC4`. -/
theorem ram_scenario_witness :
    ramSingleChannelFinding ∈ (analyzeScan scanC4).bottlenecks ∧
    ramSlowSpeedFinding ∈ (analyzeScan scanC4).bottlenecks ∧
    ramUsageDed scanC4.ram = 0 ∧ ramCapacityDed scanC4.ram = 1 ∧
    (analyzeScan scanC4).score.breakdown.ram = 1 ∧
    (analyzeScan scanC4).score.breakdown.ram ≤ 2 :=
  ram_scenario scanC4 (by decide) (by decide) (by decide) (by decide) (by decide)

/-! ### Inversion lemmas: which findings each evaluator can emit -/

lemma startsWithL_append (a x : List Char) : startsWithL a (a ++ x) = true := by
  induction a with
  | nil => rfl
  | cons c cs ih => simp [startsWithL, ih]

/-- A string extending the prefix `a` cannot equal a string that does
not start with `a`. -/
lemma append_ne_of_not_startsWithL (a x y : String)
    (h : startsWithL a.data y.data = false) : a ++ x ≠ y := by
  intro he
  have hs : startsWithL a.data (a ++ x).data = true := by
    rw [String.data_append]
    exact startsWithL_append a.data x.data
  rw [he, h] at hs
  exact Bool.false_ne_true hs

lemma cpu_cases (scan : SystemScan) (cpuE gpuE : Option HardwareEntry)
    (b : Bottleneck) (hb : b ∈ detectCPUBottlenecks scan cpuE gpuE) :
    b = cpuHighUsageFinding ∨ b = cpuModerateUsageFinding ∨
    b = cpuGpuTierMismatchFinding ∨ b = cpuNotBoostingFinding := by
  simp only [detectCPUBottlenecks, List.mem_append] at hb
  rcases hb with (hb | hb) | hb
  · split_ifs at hb <;> simp at hb <;> tauto
  · rcases cpuE with _ | c <;> rcases gpuE with _ | g <;> simp at hb
    tauto
  · split_ifs at hb <;> simp at hb
    tauto

lemma gpu_cases (scan : SystemScan) (cpuE gpuE : Option HardwareEntry)
    (b : Bottleneck) (hb : b ∈ detectGPUBottlenecks scan cpuE gpuE) :
    b = gpuLimitedFinding ∨
    (scan.gpu.vram_total_gb > 0 ∧
      scan.gpu.vram_used_gb / scan.gpu.vram_total_gb > (0.9 : Rat) ∧
      b = gpuVramFullFinding) ∨
    b = gpuCpuTierMismatchFinding := by
  simp only [detectGPUBottlenecks, List.mem_append] at hb
  rcases hb with (hb | hb) | hb
  · split_ifs at hb <;> simp at hb
    tauto
  · split_ifs at hb with h <;> simp at hb
    subst hb
    exact Or.inr (Or.inl ⟨h.1, h.2, rfl⟩)
  · rcases cpuE with _ | c <;> rcases gpuE with _ | g <;> simp at hb
    tauto

lemma ram_cases (scan : SystemScan) (b : Bottleneck)
    (hb : b ∈ detectRAMBottlenecks scan) :
    b = ramSingleChannelFinding ∨ b = ramLowCapacityFinding ∨
    b = ramHighUsageFinding ∨ b = ramSlowSpeedFinding ∨
    b = ramSlowSpeedDdr5Finding := by
  simp only [detectRAMBottlenecks, List.mem_append] at hb
  rcases hb with (((hb | hb) | hb) | hb) | hb <;>
    · split_ifs at hb <;> simp at hb <;> tauto

lemma storage_cases (scan : SystemScan) (b : Bottleneck)
    (hb : b ∈ detectStorageBottlenecks scan) :
    (∃ d, scan.storage.find? (fun x => x.is_boot_drive) = some d ∧
      d.type = .hdd ∧ b = storageHddBootFinding) ∨
    (∃ d, scan.storage.find? (fun x => x.is_boot_drive) = some d ∧
      d.capacity_gb > 0 ∧ d.used_gb / d.capacity_gb > (0.9 : Rat) ∧
      b = storageBootAlmostFullFinding) ∨
    (∃ d, scan.storage.find? (fun x => x.is_boot_drive) = some d ∧
      d.capacity_gb > 0 ∧ ¬ d.used_gb / d.capacity_gb > (0.9 : Rat) ∧
      d.used_gb / d.capacity_gb > (0.8 : Rat) ∧
      b = storageBootGettingFullFinding) ∨
    b = storageNoNvmeFinding ∨
    (∃ d ∈ scan.storage, b = storageHealthFinding d.model) := by
  simp only [detectStorageBottlenecks, List.mem_append] at hb
  rcases hb with ((hb | hb) | hb) | hb
  · rcases hd : scan.storage.find? (fun x => x.is_boot_drive) with _ | d <;>
      rw [hd] at hb <;> simp at hb
    exact Or.inl ⟨d, hd, hb.1, hb.2⟩
  · rcases hd : scan.storage.find? (fun x => x.is_boot_drive) with _ | d <;>
      rw [hd] at hb <;> simp at hb
    split_ifs at hb with h1 h2
    · exact Or.inr (Or.inl ⟨d, hd, hb.1, h1, List.mem_singleton.mp hb.2⟩)
    · exact Or.inr (Or.inr (Or.inl
        ⟨d, hd, hb.1, h1, h2, List.mem_singleton.mp hb.2⟩))
    · exact absurd hb.2 (by simp)
  · split_ifs at hb <;> simp at hb
    tauto
  · rw [List.mem_filterMap] at hb
    obtain ⟨d, hd, hf⟩ := hb
    rcases hh : d.health_status with _ | h <;> rw [hh] at hf <;> simp at hf
    exact Or.inr (Or.inr (Or.inr (Or.inr ⟨d, hd, hf.2.symm⟩)))

lemma thermal_cases (scan : SystemScan) (b : Bottleneck)
    (hb : b ∈ detectThermalBottlenecks scan) :
    b = thermalCpuCriticalFinding ∨ b = thermalCpuWarmFinding ∨
    b = thermalGpuHotFinding ∨ b = thermalGpuWarmFinding := by
  simp only [detectThermalBottlenecks, List.mem_append] at hb
  rcases hb with hb | hb
  · rcases ht : scan.cpu.current_temp_c with _ | t <;> rw [ht] at hb <;>
      simp at hb
    split_ifs at hb <;> simp at hb <;> tauto
  · rcases ht : scan.gpu.current_temp_c with _ | t <;> rw [ht] at hb <;>
      simp at hb
    split_ifs at hb <;> simp at hb <;> tauto

lemma settings_cases (scan : SystemScan) (b : Bottleneck)
    (hb : b ∈ detectSettingsBottlenecks scan) :
    b = settingsPowerPlanFinding ∨
    (scan.bios_settings.xmp_enabled = some false ∧
      b = settingsXmpOffFinding) ∨
    b = settingsRebarOffFinding ∨ b = settingsGpuSchedulingFinding ∨
    b = settingsGameModeOffFinding := by
  simp only [detectSettingsBottlenecks, List.mem_append] at hb
  rcases hb with (((hb | hb) | hb) | hb) | hb
  · split_ifs at hb <;> simp at hb
    tauto
  · split_ifs at hb with h <;> simp at hb
    subst hb
    rw [beq_iff_eq] at h
    exact Or.inr (Or.inl ⟨h, rfl⟩)
  · split_ifs at hb <;> simp at hb
    tauto
  · split_ifs at hb <;> simp at hb
    tauto
  · split_ifs at hb <;> simp at hb
    tauto

/-- Case inversion for the full concatenated detection output. -/
lemma detected_cases (scan : SystemScan) (b : Bottleneck)
    (hb : b ∈ detectedBottlenecks scan) :
    b = cpuHighUsageFinding ∨ b = cpuModerateUsageFinding ∨
    b = cpuGpuTierMismatchFinding ∨ b = cpuNotBoostingFinding ∨
    b = gpuLimitedFinding ∨
    (scan.gpu.vram_total_gb > 0 ∧
      scan.gpu.vram_used_gb / scan.gpu.vram_total_gb > (0.9 : Rat) ∧
      b = gpuVramFullFinding) ∨
    b = gpuCpuTierMismatchFinding ∨
    b = ramSingleChannelFinding ∨ b = ramLowCapacityFinding ∨
    b = ramHighUsageFinding ∨ b = ramSlowSpeedFinding ∨
    b = ramSlowSpeedDdr5Finding ∨
    (∃ d, scan.storage.find? (fun x => x.is_boot_drive) = some d ∧
      d.type = .hdd ∧ b = storageHddBootFinding) ∨
    (∃ d, scan.storage.find? (fun x => x.is_boot_drive) = some d ∧
      d.capacity_gb > 0 ∧ d.used_gb / d.capacity_gb > (0.9 : Rat) ∧
      b = storageBootAlmostFullFinding) ∨
    (∃ d, scan.storage.find? (fun x => x.is_boot_drive) = some d ∧
      d.capacity_gb > 0 ∧ ¬ d.used_gb / d.capacity_gb > (0.9 : Rat) ∧
      d.used_gb / d.capacity_gb > (0.8 : Rat) ∧
      b = storageBootGettingFullFinding) ∨
    b = storageNoNvmeFinding ∨
    (∃ d ∈ scan.storage, b = storageHealthFinding d.model) ∨
    b = thermalCpuCriticalFinding ∨ b = thermalCpuWarmFinding ∨
    b = thermalGpuHotFinding ∨ b = thermalGpuWarmFinding ∨
    b = settingsPowerPlanFinding ∨
    (scan.bios_settings.xmp_enabled = some false ∧
      b = settingsXmpOffFinding) ∨
    b = settingsRebarOffFinding ∨ b = settingsGpuSchedulingFinding ∨
    b = settingsGameModeOffFinding := by
  simp only [detectedBottlenecks, List.mem_append] at hb
  rcases hb with ((((hb | hb) | hb) | hb) | hb) | hb
  · rcases cpu_cases _ _ _ _ hb with h | h | h | h
    · exact Or.inl h
    · exact Or.inr (Or.inl h)
    · exact Or.inr (Or.inr (Or.inl h))
    · exact Or.inr (Or.inr (Or.inr (Or.inl h)))
  · rcases gpu_cases _ _ _ _ hb with h | h | h
    · exact Or.inr (Or.inr (Or.inr (Or.inr (Or.inl h))))
    · exact Or.inr (Or.inr (Or.inr (Or.inr (Or.inr (Or.inl h)))))
    · exact Or.inr (Or.inr (Or.inr (Or.inr (Or.inr (Or.inr (Or.inl h))))))
  · rcases ram_cases _ _ hb with h | h | h | h | h
    · exact Or.inr (Or.inr (Or.inr (Or.inr (Or.inr (Or.inr (Or.inr (Or.inl h)))))))
    · exact Or.inr (Or.inr (Or.inr (Or.inr (Or.inr (Or.inr (Or.inr (Or.inr (Or.inl h))))))))
    · exact Or.inr (Or.inr (Or.inr (Or.inr (Or.inr (Or.inr (Or.inr (Or.inr (Or.inr (Or.inl h)))))))))
    · exact Or.inr (Or.inr (Or.inr (Or.inr (Or.inr (Or.inr (Or.inr (Or.inr (Or.inr (Or.inr (Or.inl h))))))))))
    · exact Or.inr (Or.inr (Or.inr (Or.inr (Or.inr (Or.inr (Or.inr (Or.inr (Or.inr (Or.inr (Or.inr (Or.inl h)))))))))))
  · rcases storage_cases _ _ hb with h | h | h | h | h
    · exact Or.inr (Or.inr (Or.inr (Or.inr (Or.inr (Or.inr (Or.inr (Or.inr (Or.inr (Or.inr (Or.inr (Or.inr (Or.inl h))))))))))))
    · exact Or.inr (Or.inr (Or.inr (Or.inr (Or.inr (Or.inr (Or.inr (Or.inr (Or.inr (Or.inr (Or.inr (Or.inr (Or.inr (Or.inl h)))))))))))))
    · exact Or.inr (Or.inr (Or.inr (Or.inr (Or.inr (Or.inr (Or.inr (Or.inr (Or.inr (Or.inr (Or.inr (Or.inr (Or.inr (Or.inr (Or.inl h))))))))))))))
    · exact Or.inr (Or.inr (Or.inr (Or.inr (Or.inr (Or.inr (Or.inr (Or.inr (Or.inr (Or.inr (Or.inr (Or.inr (Or.inr (Or.inr (Or.inr (Or.inl h)))))))))))))))
    · exact Or.inr (Or.inr (Or.inr (Or.inr (Or.inr (Or.inr (Or.inr (Or.inr (Or.inr (Or.inr (Or.inr (Or.inr (Or.inr (Or.inr (Or.inr (Or.inr (Or.inl h))))))))))))))))
  · rcases thermal_cases _ _ hb with h | h | h | h
    · exact Or.inr (Or.inr (Or.inr (Or.inr (Or.inr (Or.inr (Or.inr (Or.inr (Or.inr (Or.inr (Or.inr (Or.inr (Or.inr (Or.inr (Or.inr (Or.inr (Or.inr (Or.inl h)))))))))))))))))
    · exact Or.inr (Or.inr (Or.inr (Or.inr (Or.inr (Or.inr (Or.inr (Or.inr (Or.inr (Or.inr (Or.inr (Or.inr (Or.inr (Or.inr (Or.inr (Or.inr (Or.inr (Or.inr (Or.inl h))))))))))))))))))
    · exact Or.inr (Or.inr (Or.inr (Or.inr (Or.inr (Or.inr (Or.inr (Or.inr (Or.inr (Or.inr (Or.inr (Or.inr (Or.inr (Or.inr (Or.inr (Or.inr (Or.inr (Or.inr (Or.inr (Or.inl h)))))))))))))))))))
    · exact Or.inr (Or.inr (Or.inr (Or.inr (Or.inr (Or.inr (Or.inr (Or.inr (Or.inr (Or.inr (Or.inr (Or.inr (Or.inr (Or.inr (Or.inr (Or.inr (Or.inr (Or.inr (Or.inr (Or.inr (Or.inl h))))))))))))))))))))
  · rcases settings_cases _ _ hb with h | h | h | h | h
    · exact Or.inr (Or.inr (Or.inr (Or.inr (Or.inr (Or.inr (Or.inr (Or.inr (Or.inr (Or.inr (Or.inr (Or.inr (Or.inr (Or.inr (Or.inr (Or.inr (Or.inr (Or.inr (Or.inr (Or.inr (Or.inr (Or.inl h)))))))))))))))))))))
    · exact Or.inr (Or.inr (Or.inr (Or.inr (Or.inr (Or.inr (Or.inr (Or.inr (Or.inr (Or.inr (Or.inr (Or.inr (Or.inr (Or.inr (Or.inr (Or.inr (Or.inr (Or.inr (Or.inr (Or.inr (Or.inr (Or.inr (Or.inl h))))))))))))))))))))))
    · exact Or.inr (Or.inr (Or.inr (Or.inr (Or.inr (Or.inr (Or.inr (Or.inr (Or.inr (Or.inr (Or.inr (Or.inr (Or.inr (Or.inr (Or.inr (Or.inr (Or.inr (Or.inr (Or.inr (Or.inr (Or.inr (Or.inr (Or.inr (Or.inl h)))))))))))))))))))))))
    · exact Or.inr (Or.inr (Or.inr (Or.inr (Or.inr (Or.inr (Or.inr (Or.inr (Or.inr (Or.inr (Or.inr (Or.inr (Or.inr (Or.inr (Or.inr (Or.inr (Or.inr (Or.inr (Or.inr (Or.inr (Or.inr (Or.inr (Or.inr (Or.inr (Or.inl h))))))))))))))))))))))))
    · exact Or.inr (Or.inr (Or.inr (Or.inr (Or.inr (Or.inr (Or.inr (Or.inr (Or.inr (Or.inr (Or.inr (Or.inr (Or.inr (Or.inr (Or.inr (Or.inr (Or.inr (Or.inr (Or.inr (Or.inr (Or.inr (Or.inr (Or.inr (Or.inr (Or.inr (h)))))))))))))))))))))))))

lemma mem_detected_of_settings (scan : SystemScan) (b : Bottleneck)
    (h : b ∈ detectSettingsBottlenecks scan) : b ∈ detectedBottlenecks scan := by
  simp [detectedBottlenecks, h]

lemma mem_detected_of_storage (scan : SystemScan) (b : Bottleneck)
    (h : b ∈ detectStorageBottlenecks scan) : b ∈ detectedBottlenecks scan := by
  simp [detectedBottlenecks, h]

/-! ### Claim C7: divide-by-zero safety -/

/-- C7: a scan with zero total VRAM produces no VRAM-pressure finding
(id gpu-vram-full) and no VRAM score deduction; a scan whose boot drive
(the first boot-flagged drive) has zero capacity produces neither
boot-drive fullness finding and no fullness score deduction.  The
embedding is total, so neither configuration can crash. -/
theorem divide_by_zero_safety (scan : SystemScan) :
    (scan.gpu.vram_total_gb = 0 →
      (∀ b ∈ (analyzeScan scan).bottlenecks, b.id ≠ "gpu-vram-full") ∧
      vramDed scan.gpu = 0) ∧
    (∀ d, scan.storage.find? (fun x => x.is_boot_drive) = some d →
      d.capacity_gb = 0 →
      (∀ b ∈ (analyzeScan scan).bottlenecks,
        b.id ≠ "storage-boot-almost-full" ∧
        b.id ≠ "storage-boot-getting-full") ∧
      storageFullnessDed d = 0) := by
  constructor
  · intro hz
    constructor
    · intro b hb
      rw [mem_analyze_iff] at hb
      rcases detected_cases scan b hb with
        h | h | h | h | h | ⟨h1, h2, h⟩ | h | h | h | h | h | h |
        ⟨d', hd', ht', h⟩ | ⟨d', hd', hc', hr', h⟩ |
        ⟨d', hd', hc', hr1', hr2', h⟩ | h | ⟨d', hd', h⟩ | h | h | h | h | h |
        ⟨hx, h⟩ | h | h | h
      all_goals try subst h
      all_goals try decide
      · rw [hz] at h1
        exact absurd h1 (lt_irrefl 0)
      · show "storage-health-" ++ sanitizeModel d'.model ≠ "gpu-vram-full"
        exact append_ne_of_not_startsWithL _ _ _ (by decide)
    · simp only [vramDed, hz]
      norm_num
  · intro d hfind hcap
    constructor
    · intro b hb
      rw [mem_analyze_iff] at hb
      rcases detected_cases scan b hb with
        h | h | h | h | h | ⟨h1, h2, h⟩ | h | h | h | h | h | h |
        ⟨d', hd', ht', h⟩ | ⟨d', hd', hc', hr', h⟩ |
        ⟨d', hd', hc', hr1', hr2', h⟩ | h | ⟨d', hd', h⟩ | h | h | h | h | h |
        ⟨hx, h⟩ | h | h | h
      all_goals try subst h
      all_goals try decide
      · obtain rfl : d' = d := Option.some.inj (hd'.symm.trans hfind)
        rw [hcap] at hc'
        exact absurd hc' (lt_irrefl 0)
      · obtain rfl : d' = d := Option.some.inj (hd'.symm.trans hfind)
        rw [hcap] at hc'
        exact absurd hc' (lt_irrefl 0)
      · constructor <;>
          · show "storage-health-" ++ sanitizeModel d'.model ≠ _
            exact append_ne_of_not_startsWithL _ _ _ (by decide)
    · simp only [storageFullnessDed, hcap]
      norm_num

/-- C7 (witness): `scanC7` has zero total VRAM and a zero-capacity boot
drive; both guard conclusions hold there. -/
theorem divide_by_zero_safety_witness :
    (scanC7.gpu.vram_total_gb = 0 ∧ vramDed scanC7.gpu = 0) ∧
    (scanC7.storage.find? (fun x => x.is_boot_drive) = some driveC7 ∧
      driveC7.capacity_gb = 0 ∧ storageFullnessDed driveC7 = 0) :=
  ⟨⟨by decide, ((divide_by_zero_safety scanC7).1 (by decide)).2⟩,
   ⟨by decide, by decide,
    ((divide_by_zero_safety scanC7).2 driveC7 (by decide) (by decide)).2⟩⟩

/-! ### Claim C8: XMP tri-state handling -/

/-- C8: the XMP critical finding (id settings-xmp-off) is emitted
exactly when `bios_settings.xmp_enabled` is explicitly false — an
absent (null) value never triggers it — and the settings score receives
+5 when it is explicitly true, +2 when it is unknown/absent, and +0
when it is explicitly false, inside the clamped additive settings
subscore. -/
theorem xmp_handling (scan : SystemScan) :
    ((∃ b ∈ (analyzeScan scan).bottlenecks,
        b.id = "settings-xmp-off" ∧ b.severity = .critical) ↔
      scan.bios_settings.xmp_enabled = some false) ∧
    xmpCredit (some true) = 5 ∧ xmpCredit none = 2 ∧
    xmpCredit (some false) = 0 ∧
    (analyzeScan scan).score.breakdown.settings =
      clamp (powerPlanCredit scan.os.power_plan +
        xmpCredit scan.bios_settings.xmp_enabled +
        driverCredit scan.gpu.driver_version +
        rebarCredit scan.bios_settings.resizable_bar +
        gameModeCredit scan.os.game_mode +
        hagsCredit scan.os.hw_accelerated_gpu_scheduling) 0 15 := by
  refine ⟨⟨?_, ?_⟩, rfl, rfl, rfl, rfl⟩
  · rintro ⟨b, hb, hid, hsev⟩
    rw [mem_analyze_iff] at hb
    rcases detected_cases scan b hb with
      h | h | h | h | h | ⟨h1, h2, h⟩ | h | h | h | h | h | h |
      ⟨d', hd', ht', h⟩ | ⟨d', hd', hc', hr', h⟩ |
      ⟨d', hd', hc', hr1', hr2', h⟩ | h | ⟨d', hd', h⟩ | h | h | h | h | h |
      ⟨hx, h⟩ | h | h | h
    all_goals try subst h
    all_goals try exact absurd hid (by decide)
    · exact absurd hid
        (append_ne_of_not_startsWithL "storage-health-"
          (sanitizeModel d'.model) _ (by decide))
    · exact hx
  · intro h
    refine ⟨settingsXmpOffFinding, ?_, rfl, rfl⟩
    rw [mem_analyze_iff]
    apply mem_detected_of_settings
    simp [detectSettingsBottlenecks, h]

/-! ### Claim C9: upgrade price span never inverts -/

lemma foldl_min_le_foldl_max (xs : List Rat) :
    ∀ a b : Rat, a ≤ b → xs.foldl min a ≤ xs.foldl max b := by
  induction xs with
  | nil => exact fun a b h => h
  | cons x xs ih =>
    intro a b h
    exact ih _ _ (le_trans (min_le_left a x) (le_trans h (le_max_left b x)))

lemma jsMin_le_jsMax (l : List Rat) : jsMin l ≤ jsMax l := by
  cases l with
  | nil => exact le_refl 0
  | cons x xs => exact foldl_min_le_foldl_max xs x x (le_refl x)

/-- The cost display of every recommendation is either a fixed string or a
`min`-`max` span over one price list. -/
lemma buildRecommendations_cost (scan : SystemScan) (bns : List Bottleneck)
    (cpuE gpuE : Option HardwareEntry) (r : Recommendation)
    (hr : r ∈ buildRecommendations scan bns cpuE gpuE) :
    (∃ s, r.estimated_cost = .text s) ∨
    ∃ l, r.estimated_cost = CostDisplay.span (jsMin l) (jsMax l) := by
  simp only [buildRecommendations, List.mem_map] at hr
  obtain ⟨p, hp, rfl⟩ := hr
  have hmem := List.get?_mem (List.mem_enum_iff_get?.mp hp)
  simp only [List.mem_append] at hmem
  rcases hmem with (((((((((hm | hm) | hm) | hm) | hm) | hm) | hm) | hm) | hm) | hm) | hm
  all_goals try
    (split_ifs at hm <;> simp at hm
     rw [hm]
     exact Or.inl ⟨_, rfl⟩)
  · rcases cpuE with _ | c
    · simp at hm
    · split_ifs at hm <;> simp at hm
      rw [hm.2]
      exact Or.inr ⟨_, rfl⟩
  · rcases gpuE with _ | g
    · simp at hm
    · split_ifs at hm <;> simp at hm
      rw [hm.2]
      exact Or.inr ⟨_, rfl⟩

/-- C9: the estimated-cost range of every generated upgrade recommendation
has its displayed minimum at most its displayed maximum — the price
span never inverts, for every scan and catalog composition reachable
through the engine. -/
theorem upgrade_cost_span_ordered (scan : SystemScan) (r : Recommendation)
    (hr : r ∈ (analyzeScan scan).recommendations) (lo hi : Rat)
    (hc : r.estimated_cost = .span lo hi) : lo ≤ hi := by
  rw [analyzeScan_recommendations, List.mem_insertionSort] at hr
  rcases buildRecommendations_cost _ _ _ _ r hr with ⟨s, h⟩ | ⟨l, h⟩
  · rw [hc] at h
    cases h
  · rw [hc] at h
    injection h with h1 h2
    rw [h1, h2]
    exact jsMin_le_jsMax l

/-- C9 (witness): on `scanC9` the engine emits the CPU upgrade
recommendation with the span $329–$339, and the theorem applies. -/
theorem upgrade_cost_span_witness :
    recC9 ∈ (analyzeScan scanC9).recommendations ∧
    recC9.estimated_cost = .span 329 339 ∧ (329 : Rat) ≤ 339 := by
  have hm : recC9 ∈ (analyzeScan scanC9).recommendations := by
    rw [analyzeScan_recommendations, List.mem_insertionSort]
    decide
  exact ⟨hm, rfl, upgrade_cost_span_ordered scanC9 recC9 hm 329 339 rfl⟩

/-! ### Claim C10: multiple boot-flagged drives -/

/-- C10: when one or more storage entries carry the boot flag, every
boot-drive-dependent rule (HDD boot, boot-drive fullness) and the
storage subsystem score are computed from the first boot-flagged drive
in list order (`find?`); later boot-flagged drives are ignored by these
checks, while drive-health findings still cover every drive. -/
theorem boot_drive_first_flagged (scan : SystemScan) (d : StorageInfo)
    (hfind : scan.storage.find? (fun x => x.is_boot_drive) = some d) :
    ((∃ b ∈ (analyzeScan scan).bottlenecks, b.id = "storage-hdd-boot") ↔
      d.type = .hdd) ∧
    ((∃ b ∈ (analyzeScan scan).bottlenecks,
        b.id = "storage-boot-almost-full") ↔
      (d.capacity_gb > 0 ∧ d.used_gb / d.capacity_gb > (0.9 : Rat))) ∧
    ((∃ b ∈ (analyzeScan scan).bottlenecks,
        b.id = "storage-boot-getting-full") ↔
      (d.capacity_gb > 0 ∧ ¬ d.used_gb / d.capacity_gb > (0.9 : Rat) ∧
        d.used_gb / d.capacity_gb > (0.8 : Rat))) ∧
    (analyzeScan scan).score.breakdown.storage =
      clamp (storageBase d - storageFullnessDed d - storageHealthDed d) 0 15 ∧
    (∀ e ∈ scan.storage, ∀ h, e.health_status = some h →
      (h != "" && !(["good", "ok", "healthy"].contains (toLowerStr h))) = true →
      storageHealthFinding e.model ∈ (analyzeScan scan).bottlenecks) := by
  refine ⟨⟨?_, ?_⟩, ⟨?_, ?_⟩, ⟨?_, ?_⟩, ?_, ?_⟩
  · rintro ⟨b, hb, hid⟩
    rw [mem_analyze_iff] at hb
    rcases detected_cases scan b hb with
      h | h | h | h | h | ⟨h1, h2, h⟩ | h | h | h | h | h | h |
      ⟨d', hd', ht', h⟩ | ⟨d', hd', hc', hr', h⟩ |
      ⟨d', hd', hc', hr1', hr2', h⟩ | h | ⟨d', hd', h⟩ | h | h | h | h | h |
      ⟨hx, h⟩ | h | h | h
    all_goals try subst h
    all_goals try exact absurd hid (by decide)
    · obtain rfl : d' = d := Option.some.inj (hd'.symm.trans hfind)
      exact ht'
    · exact absurd hid
        (append_ne_of_not_startsWithL "storage-health-"
          (sanitizeModel d'.model) _ (by decide))
  · intro ht
    refine ⟨storageHddBootFinding, ?_, rfl⟩
    rw [mem_analyze_iff]
    apply mem_detected_of_storage
    simp [detectStorageBottlenecks, hfind, ht]
  · rintro ⟨b, hb, hid⟩
    rw [mem_analyze_iff] at hb
    rcases detected_cases scan b hb with
      h | h | h | h | h | ⟨h1, h2, h⟩ | h | h | h | h | h | h |
      ⟨d', hd', ht', h⟩ | ⟨d', hd', hc', hr', h⟩ |
      ⟨d', hd', hc', hr1', hr2', h⟩ | h | ⟨d', hd', h⟩ | h | h | h | h | h |
      ⟨hx, h⟩ | h | h | h
    all_goals try subst h
    all_goals try exact absurd hid (by decide)
    · obtain rfl : d' = d := Option.some.inj (hd'.symm.trans hfind)
      exact ⟨hc', hr'⟩
    · exact absurd hid
        (append_ne_of_not_startsWithL "storage-health-"
          (sanitizeModel d'.model) _ (by decide))
  · rintro ⟨hcap, hrat⟩
    refine ⟨storageBootAlmostFullFinding, ?_, rfl⟩
    rw [mem_analyze_iff]
    apply mem_detected_of_storage
    simp [detectStorageBottlenecks, hfind, hcap, hrat]
  · rintro ⟨b, hb, hid⟩
    rw [mem_analyze_iff] at hb
    rcases detected_cases scan b hb with
      h | h | h | h | h | ⟨h1, h2, h⟩ | h | h | h | h | h | h |
      ⟨d', hd', ht', h⟩ | ⟨d', hd', hc', hr', h⟩ |
      ⟨d', hd', hc', hr1', hr2', h⟩ | h | ⟨d', hd', h⟩ | h | h | h | h | h |
      ⟨hx, h⟩ | h | h | h
    all_goals try subst h
    all_goals try exact absurd hid (by decide)
    · obtain rfl : d' = d := Option.some.inj (hd'.symm.trans hfind)
      exact ⟨hc', hr1', hr2'⟩
    · exact absurd hid
        (append_ne_of_not_startsWithL "storage-health-"
          (sanitizeModel d'.model) _ (by decide))
  · rintro ⟨hcap, hnot, hrat⟩
    refine ⟨storageBootGettingFullFinding, ?_, rfl⟩
    rw [mem_analyze_iff]
    apply mem_detected_of_storage
    simp [detectStorageBottlenecks, hfind, hcap, hnot, hrat]
  · rw [breakdown_storage]
    simp only [storageSubscore, hfind]
  · intro e he h hstat hcond
    rw [mem_analyze_iff]
    apply mem_detected_of_storage
    simp only [detectStorageBottlenecks]
    refine List.mem_append_right _ (List.mem_filterMap.mpr ⟨e, he, ?_⟩)
    rw [hstat]
    simp only [ite_eq_left_iff, not_forall]
    simpa using hcond

/-- C10 (witness): `scanC10` carries two boot-flagged drives; the rules
use the first (a healthy SATA SSD), so no HDD-boot finding is emitted
and the storage score comes from the first drive. -/
theorem boot_drive_first_flagged_witness :
    scanC10.storage.find? (fun x => x.is_boot_drive) = some driveC10a ∧
    driveC10a.type ≠ .hdd ∧
    (¬ ∃ b ∈ (analyzeScan scanC10).bottlenecks, b.id = "storage-hdd-boot") ∧
    (analyzeScan scanC10).score.breakdown.storage =
      clamp (storageBase driveC10a - storageFullnessDed driveC10a -
        storageHealthDed driveC10a) 0 15 := by
  have h := boot_drive_first_flagged scanC10 driveC10a (by decide)
  exact ⟨by decide, by decide, fun hc => absurd (h.1.mp hc) (by decide),
    h.2.2.2.1⟩

end Analyzer
